import Mathlib

/-!
# Session-scoped bot relay: the HTTP handlers of `src/server.js`

A shallow embedding of the three module-level maps (`userBots`, `wsClients`,
`activeChats`), of the request handlers `/send-message`, `/bots/incorporate`
and `/bots/disconnect`, of the socket listeners (`connection`, `message`,
`close`) with `handleWsMessage`, and of the `messageCreate` listener.  Every
handler is a function from the state it finds and the answers of the platform
SDK to the state it leaves, the ordered list of effects it performs and the way
it ends (a response, or an exception that escapes the handler).
-/

namespace Relay

/-! ## JavaScript `Map` with string keys -/

/-- A JavaScript `Map` keyed by strings: its entries in insertion order. -/
abbrev JsMap (V : Type) := List (String × V)

namespace JsMap

variable {V : Type}

/-- `map.get(k)`: the value stored under `k`, `none` for `undefined`. -/
def get (m : JsMap V) (k : String) : Option V :=
  match m with
  | [] => none
  | (k', v) :: rest => if k' = k then some v else get rest k

/-- `map.has(k)`. -/
def has (m : JsMap V) (k : String) : Bool :=
  match m with
  | [] => false
  | (k', _) :: rest => if k' = k then true else has rest k

/-- `map.delete(k)`: the entry under `k` is removed, the others keep their order. -/
def delete (m : JsMap V) (k : String) : JsMap V :=
  match m with
  | [] => []
  | (k', v) :: rest => if k' = k then delete rest k else (k', v) :: delete rest k

/-- `map.set(k, v)`: an existing key keeps its position and takes the new value,
a new key is appended. -/
def set (m : JsMap V) (k : String) (v : V) : JsMap V :=
  match m with
  | [] => [(k, v)]
  | (k', v') :: rest => if k' = k then (k, v) :: rest else (k', v') :: set rest k v

/-- Number of entries stored under `k`. -/
def countKey (m : JsMap V) (k : String) : Nat :=
  (m.filter (fun e => decide (e.1 = k))).length

end JsMap

/-! ## Data model -/

/-- A discord.js `Client` object held in `userBots`: `id` is the identity of the
object (the number of `new Client` calls of the handlers before it), `token` is
its `token` property after a successful `login`. -/
structure Client where
  id : Nat
  token : String
  deriving DecidableEq, Repr

/-- A platform account as returned by `users.fetch`: the fields the server reads. -/
structure Account where
  id : String
  tag : String
  deriving DecidableEq, Repr

/-- The `code` property of an error thrown by the platform SDK. -/
inductive ErrCode where
  | absent
  | num (n : Int)
  | str (s : String)
  deriving DecidableEq, Repr

/-- An error thrown by a platform call. -/
structure PlatformError where
  code : ErrCode
  message : String
  stack : String
  deriving DecidableEq, Repr

/-- The first argument of `sendLog`, the `data.type` field of a log frame. -/
inductive LogType where
  | info
  | success
  | error
  deriving DecidableEq, Repr

/-- A frame written to a browser socket by `ws.send(JSON.stringify(...))`:
a log frame (type `log`, data `type` and `message`) or a chat frame (type
`chat`, data `from`, `fromUsername` and `text`). -/
inductive Frame where
  | log (type : LogType) (message : String)
  | chat («from» : String) (fromUsername : String) (text : String)
  deriving DecidableEq, Repr

/-- What `newUserBot.user` offers after a successful login, together with the
value the SDK leaves in `client.token`. -/
structure Profile where
  username : String
  avatarURL : String
  token : String
  deriving DecidableEq, Repr

/-- The object `botDetails` of `/bots/incorporate`. -/
structure BotDetails where
  name : String
  avatar : String
  deriving DecidableEq, Repr

/-- The value of `req.session.incorporatedBot`: the fields of `botDetails` and
the token. -/
structure IncorporatedBot where
  name : String
  avatar : String
  token : String
  deriving DecidableEq, Repr

/-- The part of `req.session` the handlers read and write. -/
structure Session where
  id : String
  userId : String
  incorporatedBot : Option IncorporatedBot
  deriving DecidableEq, Repr

/-- The JSON body of a response. -/
structure Body where
  message : String
  bot : Option BotDetails
  deriving DecidableEq, Repr

/-- A JavaScript exception that is not a platform error. -/
structure JsError where
  name : String
  message : String
  deriving DecidableEq, Repr

/-- How a handler ends: it sends a response, or an exception leaves the handler
and no response is sent by it. -/
inductive Outcome where
  | responded (status : Nat) (body : Body)
  | threw (err : JsError)
  deriving DecidableEq, Repr

/-- One effect of a handler, in the order the handler performs them.  Awaited
calls (`fetch`, `send`, `destroy`, `login`, the delay) are recorded once: the
handler continues only after they settle.  `houseFetch` and `houseSend` are
`users.fetch` and `send` through the module-level `client` of line 26. -/
inductive Event where
  | fetch (client : Nat) (userId : String)
  | send (client : Nat) (account : String) (text : String)
  | consoleLog (text : String)
  | consoleError (label : String) (detail : String)
  | consoleErrorObj (label : String) (error : PlatformError)
  | push (socket : Nat) (frame : Frame)
  | delay (ms : Nat)
  | destroy (client : Nat)
  | login (client : Nat) (token : String)
  | sessionSave
  | houseFetch (userId : String)
  | houseSend (account : String) (text : Option String)
  | consoleErrorJs (label : String) (error : JsError)
  deriving DecidableEq, Repr

/-- The module-level state: the three maps, and the number of `Client` objects
the handlers have constructed (the identity of the next one). -/
structure State where
  userBots : JsMap Client
  wsClients : JsMap Nat
  activeChats : JsMap String
  nextClient : Nat
  deriving DecidableEq, Repr

/-- What surrounds one handler call: the answers of the platform SDK and the
runtime's rendering of a number inside a template literal. -/
structure Env where
  /-- `String(n)` for a number `n`. -/
  numberToString : ℚ → String
  /-- `newUserBot.login(token)`. -/
  login : String → Except PlatformError Profile
  /-- `userBotClient.users.fetch(userId)`. -/
  fetch : String → Except PlatformError Account
  /-- `user.send(message)` of loop index `i`: `none` when it resolves. -/
  send : Nat → Option PlatformError

/-- What a handler call leaves behind. -/
structure Result where
  state : State
  session : Session
  trace : List Event
  outcome : Outcome
  deriving DecidableEq, Repr

/-! ## Numbers in template literals -/

/-- The digits of the fraction `r / d` (with `r < d`) after the decimal point,
at most `fuel` of them. -/
def fracDigits (d : Nat) : Nat → Nat → List Nat
  | 0, _ => []
  | fuel + 1, r => if r = 0 then [] else (r * 10 / d) :: fracDigits d fuel (r * 10 % d)

/-- A list of decimal digits as text. -/
def digitString (ds : List Nat) : String := String.mk (ds.map Nat.digitChar)

/-- The decimal digits of a natural number, most significant first. -/
def natDigits (n : Nat) : List Nat := (Nat.toDigits 10 n).map (fun c => c.toNat - 48)

/-- A list of digits without its trailing zeros. -/
def stripZeros (ds : List Nat) : List Nat := (ds.reverse.dropWhile (fun d => d == 0)).reverse

/-- The significant digits in exponent notation: the first digit, then a point
and the other digits when there are any. -/
def mantissa (sig : List Nat) : String :=
  match sig with
  | [] => ""
  | [d] => digitString [d]
  | d :: rest => digitString [d] ++ "." ++ digitString rest

/-- `Number::toString` of ECMAScript for the positive number `num / den`, read
as an exact decimal: plain digits when the integer part has at most 21 digits
or the fraction starts with at most five zeros, exponent notation otherwise. -/
def positiveToString (num den : Nat) : String :=
  let whole := num / den
  let frac := fracDigits den den (num % den)
  if whole = 0 then
    let zeros := (frac.takeWhile (fun d => d == 0)).length
    if zeros ≤ 5 then "0." ++ digitString frac
    else mantissa (frac.drop zeros) ++ "e-" ++ toString (zeros + 1)
  else
    let int := natDigits whole
    if int.length ≤ 21 then
      if frac = [] then digitString int else digitString int ++ "." ++ digitString frac
    else mantissa (stripZeros (int ++ frac)) ++ "e+" ++ toString (int.length - 1)

/-- A number inside a template literal, as JavaScript prints it: `3`, `2.5`,
`-2`, `1e+21`, `1e-7`.  The number is the decimal a JSON text denotes; the
printed digits are exactly its digits (as JavaScript prints them when there
are at most 15 significant ones).  A rational with no finite decimal
expansion is no JSON number; its digits are cut. -/
def jsNumberToString (q : ℚ) : String :=
  if q = 0 then "0"
  else if q < 0 then "-" ++ positiveToString q.num.natAbs q.den
  else positiveToString q.num.natAbs q.den

/-! ## `/send-message` -/

/-- The destructured body of `/send-message`; `none` is an absent field. -/
structure SendBody where
  userId : Option String
  count : Option ℚ
  message : Option String
  botToken : Option String
  deriving DecidableEq, Repr

/-- Truthiness of a string-valued field: present and not the empty string. -/
def truthyStr : Option String → Bool
  | none => false
  | some s => s != ""

/-- Truthiness of a number-valued field: present and not zero. -/
def truthyNum : Option ℚ → Bool
  | none => false
  | some q => q != 0

/-- Status 403 body (line 182). -/
def msgNoBot : String :=
  "Bot não incorporado ou token inválido. Por favor, incorpore seu bot primeiro."

/-- Status 400 body (line 187). -/
def msgMissingFields : String := "Todos os campos são obrigatórios."

/-- The initial value of `errorMessage` (line 214). -/
def msgGeneric : String := "Falha ao enviar as mensagens. Verifique o console do servidor."

/-- The `errorMessage` of the branch `error.code === 10013` (line 216). -/
def msgUnknownUser (userId : String) : String :=
  "Usuário com ID \x22" ++ userId ++ "\x22 não encontrado. Verifique se o ID está correto."

/-- The `errorMessage` of the branch `error.code === 50007` (line 220). -/
def msgDeliveryRefused : String :=
  "Não foi possível enviar a DM. O usuário pode ter desativado as mensagens diretas."

/-- The console line of line 199. -/
def msgReceived (count : String) (tag : String) (message : String) : String :=
  "Recebido pedido para enviar " ++ count ++ " mensagem(ns) para \x27" ++ tag ++
    "\x27 com o texto: \x22" ++ message ++ "\x22"

/-- The start log of line 200. -/
def msgStart (count : String) (tag : String) : String :=
  "Iniciando envio de " ++ count ++ " mensagens para " ++ tag ++ "..."

/-- The console line of line 204. -/
def msgSentTo (i : Nat) (count : String) (tag : String) : String :=
  "Mensagem " ++ toString (i + 1) ++ "/" ++ count ++ " enviada para " ++ tag

/-- The progress log of line 205. -/
def msgProgress (i : Nat) (count : String) : String :=
  "Mensagem " ++ toString (i + 1) ++ "/" ++ count ++ " enviada."

/-- The success log of line 208. -/
def msgDone : String := "Envio concluído com sucesso!"

/-- The body of the 200 response (line 210). -/
def msgSuccess (count : String) (tag : String) : String :=
  "Sucesso! " ++ count ++ " mensagem(ns) enviada(s) para " ++ tag ++ "."

/-- The closure `sendLog` (lines 195-197): one log frame on `ws` when `ws` is
defined, nothing otherwise. -/
def sendLog (ws : Option Nat) (type : LogType) (logMessage : String) : List Event :=
  match ws with
  | some socket => [Event.push socket (Frame.log type logMessage)]
  | none => []

/-- The effects of one completed iteration of the loop (lines 203-206). -/
def iteration (ws : Option Nat) (client : Nat) (user : Account) (message : String)
    (count : String) (i : Nat) : List Event :=
  [Event.send client user.id message, Event.consoleLog (msgSentTo i count user.tag)]
    ++ sendLog ws LogType.info (msgProgress i count)
    ++ [Event.delay 500]

/-- The loop `for (let i = 0; i < count; i++)` of lines 202-207, entered at
index `i`: the effects it performs and the error that ended it, if any.  `fuel`
bounds the number of times the loop condition is evaluated; `none` means the
bound was reached. -/
def sendLoop (env : Env) (ws : Option Nat) (client : Nat) (user : Account)
    (message : String) (count : ℚ) : Nat → Nat → Option (List Event × Option PlatformError)
  | 0, _ => none
  | fuel + 1, i =>
    if (i : ℚ) < count then
      match env.send i with
      | some err => some ([Event.send client user.id message], some err)
      | none =>
        match sendLoop env ws client user message count fuel (i + 1) with
        | none => none
        | some (rest, r) =>
          some (iteration ws client user message (env.numberToString count) i ++ rest, r)
    else some ([], none)

/-- The identifier `ws` as the `catch` block of `/send-message` sees it
(lines 217 and 221).  The `const ws` of line 194 is declared inside the `try`
block and is out of scope here; the handler's parameters are `req` and `res`,
the module binds no `ws` (line 6 binds `WebSocketServer` only) and the runtime
has no global of that name, so evaluating the identifier throws. -/
def wsInCatch : Except JsError (Option Nat) :=
  Except.error { name := "ReferenceError", message := "ws is not defined" }

/-- The `if (ws) ws.send(...)` statement of lines 217 and 221. -/
def catchPush (errorMessage : String) : Except JsError (List Event) :=
  match wsInCatch with
  | Except.error e => Except.error e
  | Except.ok ws => Except.ok (sendLog ws LogType.error errorMessage)

/-- The `catch` block of `/send-message` (lines 212-224), entered with the
effects performed so far. -/
def sendCatch (st : State) (sess : Session) (userId : String) (error : PlatformError)
    (done : List Event) : Result :=
  let t0 := done ++ [Event.consoleErrorObj "Erro ao processar o envio de mensagens:" error]
  if error.code = ErrCode.num 10013 then
    match catchPush (msgUnknownUser userId) with
    | Except.error e => { state := st, session := sess, trace := t0, outcome := Outcome.threw e }
    | Except.ok pushed =>
      if error.code = ErrCode.num 50007 then
        match catchPush msgDeliveryRefused with
        | Except.error e =>
          { state := st, session := sess, trace := t0 ++ pushed, outcome := Outcome.threw e }
        | Except.ok pushed2 =>
          { state := st, session := sess, trace := t0 ++ pushed ++ pushed2,
            outcome := Outcome.responded 500 { message := msgDeliveryRefused, bot := none } }
      else
        { state := st, session := sess, trace := t0 ++ pushed,
          outcome := Outcome.responded 500 { message := msgUnknownUser userId, bot := none } }
  else if error.code = ErrCode.num 50007 then
    match catchPush msgDeliveryRefused with
    | Except.error e => { state := st, session := sess, trace := t0, outcome := Outcome.threw e }
    | Except.ok pushed =>
      { state := st, session := sess, trace := t0 ++ pushed,
        outcome := Outcome.responded 500 { message := msgDeliveryRefused, bot := none } }
  else
    { state := st, session := sess, trace := t0,
      outcome := Outcome.responded 500 { message := msgGeneric, bot := none } }

/-- The handler of `POST /send-message` (lines 176-225) for an authenticated
request.  `none` means `fuel` was too small for the loop. -/
def sendMessage (env : Env) (st : State) (sess : Session) (body : SendBody) (fuel : Nat) :
    Option Result :=
  let forbidden : Result :=
    { state := st, session := sess, trace := [],
      outcome := Outcome.responded 403 { message := msgNoBot, bot := none } }
  match st.userBots.get sess.id with
  | none => some forbidden
  | some userBotClient =>
    if some userBotClient.token ≠ body.botToken then some forbidden
    else if !truthyStr body.userId || !truthyNum body.count || !truthyStr body.message then
      some { state := st, session := sess, trace := [],
             outcome := Outcome.responded 400 { message := msgMissingFields, bot := none } }
    else
      let userId := body.userId.getD ""
      let count := body.count.getD 0
      let message := body.message.getD ""
      match env.fetch userId with
      | Except.error err =>
        some (sendCatch st sess userId err [Event.fetch userBotClient.id userId])
      | Except.ok user =>
        let ws := st.wsClients.get sess.userId
        let shown := env.numberToString count
        let start := [Event.fetch userBotClient.id userId,
            Event.consoleLog (msgReceived shown user.tag message)]
          ++ sendLog ws LogType.info (msgStart shown user.tag)
        match sendLoop env ws userBotClient.id user message count fuel 0 with
        | none => none
        | some (looped, some err) => some (sendCatch st sess userId err (start ++ looped))
        | some (looped, none) =>
          some { state := st, session := sess,
                 trace := start ++ looped ++ sendLog ws LogType.success msgDone,
                 outcome := Outcome.responded 200
                   { message := msgSuccess shown user.tag, bot := none } }

/-! ## `/bots/incorporate` and `/bots/disconnect` -/

/-- Status 400 body of `/bots/incorporate` (line 231). -/
def msgNoToken : String := "Token não fornecido."

/-- Status 401 body of `/bots/incorporate` (line 262). -/
def msgInvalidToken : String := "Token inválido. Não foi possível fazer login com o bot."

/-- Status 200 message of `/bots/incorporate` (line 257). -/
def msgIncorporated : String := "Bot incorporado com sucesso!"

/-- Status 200 message of `/bots/disconnect` (line 273). -/
def msgDisconnected : String := "Bot desconectado."

/-- The block shared by lines 235-238 and 268-271:
when `userBots.has(id)`, `await userBots.get(id).destroy()` and then
`userBots.delete(id)`.
`destroy()` is taken to resolve.  The values of `userBots` are objects, so
`get` answers whenever `has` does; the `none` arm is there for totality. -/
def detachExisting (userBots : JsMap Client) (sessionId : String) :
    JsMap Client × List Event :=
  if userBots.has sessionId then
    match userBots.get sessionId with
    | some old => (userBots.delete sessionId, [Event.destroy old.id])
    | none => (userBots.delete sessionId, [])
  else (userBots, [])

/-- The handler of `POST /bots/incorporate` (lines 228-264) for an
authenticated request whose body carries `token`. -/
def incorporate (env : Env) (st : State) (sess : Session) (token : Option String) : Result :=
  if !truthyStr token then
    { state := st, session := sess, trace := [],
      outcome := Outcome.responded 400 { message := msgNoToken, bot := none } }
  else
    let tok := token.getD ""
    let detached := detachExisting st.userBots sess.id
    let newUserBot := st.nextClient
    match env.login tok with
    | Except.ok profile =>
      let botDetails : BotDetails := { name := profile.username, avatar := profile.avatarURL }
      let stored : IncorporatedBot :=
        { name := botDetails.name, avatar := botDetails.avatar, token := tok }
      { state := { st with
            userBots := detached.1.set sess.id { id := newUserBot, token := profile.token },
            nextClient := st.nextClient + 1 },
        session := { sess with incorporatedBot := some stored },
        trace := detached.2 ++ [Event.login newUserBot tok, Event.sessionSave],
        outcome := Outcome.responded 200 { message := msgIncorporated, bot := some botDetails } }
    | Except.error err =>
      { state := { st with userBots := detached.1, nextClient := st.nextClient + 1 },
        session := sess,
        trace := detached.2 ++ [Event.login newUserBot tok,
          Event.consoleError "Falha ao incorporar bot:" err.message],
        outcome := Outcome.responded 401 { message := msgInvalidToken, bot := none } }

/-- The handler of `POST /bots/disconnect` (lines 267-274) for an authenticated
request. -/
def disconnect (st : State) (sess : Session) : Result :=
  let detached := detachExisting st.userBots sess.id
  { state := { st with userBots := detached.1 },
    session := { sess with incorporatedBot := none },
    trace := detached.2 ++ [Event.sessionSave],
    outcome := Outcome.responded 200 { message := msgDisconnected, bot := none } }

/-! ## The socket handlers and the inbound listener -/

/-- The object `messageData.data` of a browser frame: `targetUserId` is taken to
be a string, `message` may be absent (the start frame of the browser carries
none). -/
structure ChatData where
  targetUserId : String
  message : Option String
  deriving DecidableEq, Repr

/-- A raw frame as `handleWsMessage` looks at it: text that `JSON.parse`
rejects, the JSON value `null`, or another JSON value with its `type` and
`action` (when they are strings) and its `data` (`none` when `data` is
undefined or null). -/
inductive RawFrame where
  | invalid
  | nullValue
  | value (type : Option String) (action : Option String) (data : Option ChatData)
  deriving DecidableEq, Repr

/-- What a socket handler or listener call leaves behind: the state, the
effects, and the exception that left the call, if any. -/
structure WsResult where
  state : State
  trace : List Event
  escaped : Option JsError
  deriving DecidableEq, Repr

/-- The first argument of `console.error` in `handleWsMessage` (line 319). -/
def labelWsError : String := "Erro ao processar mensagem WebSocket:"

/-- The log text of line 316; an absent `message` is rendered `undefined`. -/
def msgRelayed (tag : String) (message : Option String) : String :=
  "Msg para " ++ tag ++ ": " ++ message.getD "undefined"

/-- The function `handleWsMessage` (lines 301-321).  The platform calls go
through the module-level `client`: `env.fetch` answers `client.users.fetch`,
`env.send 0` answers the one `targetUser.send`.  Every exception of the `try`
block ends in the `console.error` of the `catch` block. -/
def handleWsMessage (env : Env) (st : State) (senderId : String) (rawMessage : RawFrame) :
    WsResult :=
  match rawMessage with
  | RawFrame.invalid =>
    { state := st,
      trace := [Event.consoleErrorJs labelWsError
        { name := "SyntaxError", message := "Unexpected token in JSON" }],
      escaped := none }
  | RawFrame.nullValue =>
    { state := st,
      trace := [Event.consoleErrorJs labelWsError
        { name := "TypeError", message := "Cannot read properties of null" }],
      escaped := none }
  | RawFrame.value type action data =>
    if type = some "chat" then
      match data with
      | none =>
        { state := st,
          trace := [Event.consoleErrorJs labelWsError
            { name := "TypeError", message := "Cannot destructure property of undefined" }],
          escaped := none }
      | some d =>
        match env.fetch d.targetUserId with
        | Except.error err =>
          { state := st,
            trace := [Event.houseFetch d.targetUserId, Event.consoleErrorObj labelWsError err],
            escaped := none }
        | Except.ok targetUser =>
          match env.send 0 with
          | some err =>
            { state := st,
              trace := [Event.houseFetch d.targetUserId,
                Event.houseSend targetUser.id d.message,
                Event.consoleErrorObj labelWsError err],
              escaped := none }
          | none =>
            let chats :=
              if action = some "start" then st.activeChats.set senderId d.targetUserId
              else st.activeChats
            let ws := st.wsClients.get senderId
            { state := { st with activeChats := chats },
              trace := [Event.houseFetch d.targetUserId,
                  Event.houseSend targetUser.id d.message]
                ++ sendLog ws LogType.info (msgRelayed targetUser.tag d.message),
              escaped := none }
    else { state := st, trace := [], escaped := none }

/-- The body of the `connection` listener (lines 64-66) for the socket `ws` of
the user `userId`. -/
def onConnection (st : State) (userId : String) (ws : Nat) : WsResult :=
  { state := { st with wsClients := st.wsClients.set userId ws },
    trace := [Event.consoleLog ("Cliente WebSocket conectado: " ++ userId)],
    escaped := none }

/-- The `close` listener of a socket of the user `userId` (lines 73-77).  The
listener closes over `userId` only: which socket is closing plays no part. -/
def onClose (st : State) (userId : String) : WsResult :=
  { state := { st with wsClients := st.wsClients.delete userId,
                       activeChats := st.activeChats.delete userId },
    trace := [Event.consoleLog ("Cliente WebSocket desconectado: " ++ userId)],
    escaped := none }

/-- The fields of a platform message the `messageCreate` listener reads. -/
structure Inbound where
  authorId : String
  authorTag : String
  authorBot : Bool
  channelType : Nat
  content : String
  deriving DecidableEq, Repr

/-- The frame of lines 337-340. -/
def chatFrame (msg : Inbound) : Frame :=
  Frame.chat msg.authorId msg.authorTag msg.content

/-- The loop of lines 331-343 over the entries of `activeChats` that are left. -/
def fanOut (wsClients : JsMap Nat) (msg : Inbound) : JsMap String → List Event
  | [] => []
  | (websiteUserId, targetDiscordUserId) :: rest =>
    (if msg.authorId = targetDiscordUserId then
      match wsClients.get websiteUserId with
      | some ws => [Event.push ws (chatFrame msg)]
      | none => []
    else []) ++ fanOut wsClients msg rest

/-- The `messageCreate` listener (lines 324-345). -/
def messageCreate (st : State) (msg : Inbound) : WsResult :=
  if msg.authorBot then { state := st, trace := [], escaped := none }
  else if msg.channelType = 1 then
    { state := st, trace := fanOut st.wsClients msg st.activeChats, escaped := none }
  else { state := st, trace := [], escaped := none }

/-! ## The sockets as a transition system -/

/-- The server with its open sockets and the calls of `handleWsMessage` that
are under way: `live` lists every socket that is open, with the `userId` its
listeners close over; `pending` lists the calls that wait for the platform,
with their `senderId` and frame. -/
structure Sys where
  st : State
  live : List (Nat × String)
  pending : List (String × RawFrame)

/-- The user whose listeners are attached to `socket`, when it is open. -/
def ownerOf (live : List (Nat × String)) (socket : Nat) : Option String :=
  match live with
  | [] => none
  | (s, u) :: rest => if s = socket then some u else ownerOf rest socket

/-- The pending call number `i`, counted from 0. -/
def taskAt : List (String × RawFrame) → Nat → Option (String × RawFrame)
  | [], _ => none
  | t :: _, 0 => some t
  | _ :: rest, i + 1 => taskAt rest i

/-- The pending calls without call number `i`. -/
def dropTask : List (String × RawFrame) → Nat → List (String × RawFrame)
  | [], _ => []
  | _ :: rest, 0 => rest
  | t :: rest, i + 1 => t :: dropTask rest i

/-- A socket event: a new socket of an authenticated user; a frame on an open
socket; the moment the platform calls of a call of `handleWsMessage` have
settled (with the answers they gave); the close of an open socket. -/
inductive WsEvent where
  | connect (userId : String) (socket : Nat)
  | frame (socket : Nat) (raw : RawFrame)
  | settle (task : Nat) (env : Env)
  | close (socket : Nat)

/-- One event: `none` when the event cannot happen (a new socket that is
already open, a frame or a close on a socket that is not open, a call that is
not pending).  A frame starts a call of `handleWsMessage`, which reads and
writes no map before its awaited platform calls have settled (lines 303-307),
so the call is kept as pending and other events may come first; when it
settles, the rest of the function (lines 310-316) runs on the state of that
moment. -/
def step (sys : Sys) : WsEvent → Option Sys
  | WsEvent.connect userId socket =>
    match ownerOf sys.live socket with
    | some _ => none
    | none =>
      some { st := (onConnection sys.st userId socket).state,
             live := sys.live ++ [(socket, userId)],
             pending := sys.pending }
  | WsEvent.frame socket raw =>
    match ownerOf sys.live socket with
    | none => none
    | some userId =>
      some { st := sys.st, live := sys.live, pending := sys.pending ++ [(userId, raw)] }
  | WsEvent.settle task env =>
    match taskAt sys.pending task with
    | none => none
    | some call =>
      some { st := (handleWsMessage env sys.st call.1 call.2).state,
             live := sys.live,
             pending := dropTask sys.pending task }
  | WsEvent.close socket =>
    match ownerOf sys.live socket with
    | none => none
    | some userId =>
      some { st := (onClose sys.st userId).state,
             live := sys.live.filter (fun e => decide (e.1 ≠ socket)),
             pending := sys.pending }

/-- A sequence of events, one after the other. -/
def run (sys : Sys) : List WsEvent → Option Sys
  | [] => some sys
  | ev :: rest =>
    match step sys ev with
    | none => none
    | some next => run next rest

/-- The server before any event: empty maps, no open socket, no pending call. -/
def emptySys : Sys :=
  { st := { userBots := [], wsClients := [], activeChats := [], nextClient := 0 },
    live := [],
    pending := [] }

/-- The states the socket events can reach from the empty state. -/
def Reachable (sys : Sys) : Prop := ∃ evs, run emptySys evs = some sys

/-- A sequence of events in which a user gets a new socket only while none of
the user's sockets is open, and a socket closes only while no call of
`handleWsMessage` for its user is pending. -/
def calm (sys : Sys) : List WsEvent → Prop
  | [] => True
  | ev :: rest =>
    (match ev with
      | WsEvent.connect userId _ => ∀ s, ownerOf sys.live s ≠ some userId
      | WsEvent.close socket =>
        ∀ userId, ownerOf sys.live socket = some userId →
          ∀ call ∈ sys.pending, call.1 ≠ userId
      | _ => True)
    ∧ match step sys ev with
      | none => True
      | some next => calm next rest

/-- Whether a frame is a log frame, of any type. -/
def isLogFrame : Frame → Bool
  | Frame.log _ _ => true
  | Frame.chat _ _ _ => false

/-- The calls a trace makes through the module-level `client`. -/
def houseCalls : List Event → List Event
  | [] => []
  | Event.houseFetch u :: rest => Event.houseFetch u :: houseCalls rest
  | Event.houseSend a m :: rest => Event.houseSend a m :: houseCalls rest
  | _ :: rest => houseCalls rest

/-- Every open socket is the one registered for its user, every pending call
and every route belongs to a user who has an open socket. -/
def wellRegistered (sys : Sys) : Prop :=
  (∀ s u, ownerOf sys.live s = some u → sys.st.wsClients.get u = some s)
    ∧ (∀ call ∈ sys.pending, ∃ s, ownerOf sys.live s = some call.1)
    ∧ ∀ u, sys.st.activeChats.get u ≠ none → ∃ s, ownerOf sys.live s = some u

/-- The frames that are to leave no mark: text that is not JSON, JSON without a
`data` object, a type other than `chat`, or a chat frame whose fetch or send
fails. -/
def dropped (env : Env) : RawFrame → Prop
  | RawFrame.invalid => True
  | RawFrame.nullValue => True
  | RawFrame.value _ _ none => True
  | RawFrame.value type _ (some d) =>
    type ≠ some "chat" ∨ (∃ err, env.fetch d.targetUserId = Except.error err)
      ∨ (∃ err, env.send 0 = some err)

/-! ## Observations on a trace -/

/-- The frames a trace writes to `socket`, in order. -/
def pushedTo (socket : Nat) : List Event → List Frame
  | [] => []
  | Event.push s f :: rest => if s = socket then f :: pushedTo socket rest else pushedTo socket rest
  | _ :: rest => pushedTo socket rest

/-- All frames a trace writes, to any socket, in order. -/
def pushedFrames : List Event → List Frame
  | [] => []
  | Event.push _ f :: rest => f :: pushedFrames rest
  | _ :: rest => pushedFrames rest

/-- The platform sends of a trace, in order. -/
def sendsOf : List Event → List Event
  | [] => []
  | Event.send c a m :: rest => Event.send c a m :: sendsOf rest
  | _ :: rest => sendsOf rest

/-- The platform sends and the delays of a trace, in order. -/
def sendsAndDelays : List Event → List Event
  | [] => []
  | Event.send c a m :: rest => Event.send c a m :: sendsAndDelays rest
  | Event.delay ms :: rest => Event.delay ms :: sendsAndDelays rest
  | _ :: rest => sendsAndDelays rest

/-- Whether a frame is a log frame of type `error`. -/
def isErrorLog : Frame → Bool
  | Frame.log LogType.error _ => true
  | _ => false

/-- The effects of the completed iterations `i, i + 1, ..., i + n - 1` of the loop. -/
def iterations (ws : Option Nat) (client : Nat) (user : Account) (message : String)
    (count : String) (i n : Nat) : List Event :=
  (List.range' i n).flatMap (iteration ws client user message count)

/-- The effects of the `try` block up to the loop (lines 192-200). -/
def startTrace (ws : Option Nat) (client : Nat) (user : Account) (userId message shown : String) :
    List Event :=
  [Event.fetch client userId, Event.consoleLog (msgReceived shown user.tag message)]
    ++ sendLog ws LogType.info (msgStart shown user.tag)

/-- The effects of a `try` block that runs `n` iterations and completes. -/
def successTrace (ws : Option Nat) (client : Nat) (user : Account)
    (userId message shown : String) (n : Nat) : List Event :=
  startTrace ws client user userId message shown
    ++ iterations ws client user message shown 0 n
    ++ sendLog ws LogType.success msgDone

/-- An error the `catch` block of `/send-message` has no branch for. -/
def otherCode (e : PlatformError) : Prop :=
  e.code ≠ ErrCode.num 10013 ∧ e.code ≠ ErrCode.num 50007

instance (e : PlatformError) : Decidable (otherCode e) := by
  unfold otherCode; infer_instance

/-- The 403 condition in the words of the contract: the pool has no client for
the session, or the stored client has another token than the supplied one. -/
def noBotAttached (st : State) (sess : Session) (body : SendBody) : Prop :=
  match st.userBots.get sess.id with
  | none => True
  | some c => some c.token ≠ body.botToken

/-- The result of the 403 branch (line 182). -/
def forbidden (st : State) (sess : Session) : Result :=
  { state := st, session := sess, trace := [],
    outcome := Outcome.responded 403 { message := msgNoBot, bot := none } }

/-! ## Concrete inputs -/

/-- A runtime and platform where every call succeeds; numbers are printed as
JavaScript prints them. -/
def okEnv : Env :=
  { numberToString := jsNumberToString,
    login := fun t => Except.ok { username := "helper", avatarURL := "cdn/helper.png", token := t },
    fetch := fun u => Except.ok { id := u, tag := "ana#0001" },
    send := fun _ => none }

/-- A platform error with the given code. -/
def errWith (code : ErrCode) : PlatformError :=
  { code := code, message := "request failed", stack := "at REST.request (rest.js:12)" }

/-- Session `s1` of user `u1` has the client 0 with token `tok` attached and an
open socket 7. -/
def demoState : State :=
  { userBots := [("s1", { id := 0, token := "tok" })],
    wsClients := [("u1", 7)],
    activeChats := [],
    nextClient := 1 }

/-- The session `s1` of user `u1`. -/
def demoSession : Session := { id := "s1", userId := "u1", incorporatedBot := none }

/-- The count 5/2, that is 2.5. -/
def halfCount : ℚ := { num := 5, den := 2, den_nz := by decide, reduced := by decide }

/-- A well-formed `/send-message` body asking for `n` messages to account `123`. -/
def demoBody (n : ℚ) : SendBody :=
  { userId := some "123", count := some n, message := some "hi", botToken := some "tok" }

/-- The platform of `okEnv`, except that send number `k` (from 0) is rejected
with `code`. -/
def failingEnv (k : Nat) (code : ErrCode) : Env :=
  { okEnv with send := fun i => if i = k then some (errWith code) else none }

/-- The platform of `okEnv`, except that every fetch is rejected with `code`. -/
def noFetchEnv (code : ErrCode) : Env :=
  { okEnv with fetch := fun _ => Except.error (errWith code) }

/-- Another platform error: code 50001, with its own message and stack. -/
def missingAccess : PlatformError :=
  { code := ErrCode.num 50001, message := "Missing Access", stack := "at handleErrors (x.js:1)" }

/-- The platform of `okEnv`, except that the first send is rejected with
`missingAccess`. -/
def missingAccessEnv : Env :=
  { okEnv with send := fun i => if i = 0 then some missingAccess else none }

/-- A state whose pool is empty; user `u1` has the open socket 7 and a route. -/
def noBotState : State :=
  { userBots := [], wsClients := [("u1", 7)], activeChats := [("u1", "123")], nextClient := 0 }

/-- The platform of `okEnv`, except that every login is rejected. -/
def rejectEnv : Env :=
  { okEnv with login := fun _ => Except.error (errWith (ErrCode.str "TokenInvalid")) }

/-- Two sessions with a client each; `s1` comes second in the pool. -/
def twoBotState : State :=
  { userBots := [("s0", { id := 0, token := "other" }), ("s1", { id := 1, token := "tok" })],
    wsClients := [("u1", 7)],
    activeChats := [("u1", "123")],
    nextClient := 2 }

/-- The start frame the browser sends for target `123`: type `chat`, action
`start`, data with `targetUserId` only. -/
def startFrame : RawFrame :=
  RawFrame.value (some "chat") (some "start") (some { targetUserId := "123", message := none })

/-- A frame with action `start` that also carries the text `oi` for target `123`. -/
def greetFrame : RawFrame :=
  RawFrame.value (some "chat") (some "start") (some { targetUserId := "123", message := some "oi" })

/-- A chat frame without action carrying the text `oi` for target `123`. -/
def textFrame : RawFrame :=
  RawFrame.value (some "chat") none (some { targetUserId := "123", message := some "oi" })

/-- A direct message (channel type 1) with text `oi` from the account `123`, not a bot. -/
def inboundDm : Inbound :=
  { authorId := "123", authorTag := "ana#0001", authorBot := false, channelType := 1,
    content := "oi" }

/-- Users `u1` and `u2` chat with account `123`, user `u3` with account `9`;
each has a socket of its own. -/
def fanState : State :=
  { userBots := [],
    wsClients := [("u1", 7), ("u2", 8), ("u3", 9)],
    activeChats := [("u1", "123"), ("u2", "123"), ("u3", "9")],
    nextClient := 0 }

/-- User `u1` opens socket 1, then socket 2 (which replaces 1 in `wsClients`),
socket 1 closes, a start frame with a text arrives on socket 2 and its
platform calls succeed. -/
def replacedSocketEvents : List WsEvent :=
  [WsEvent.connect "u1" 1, WsEvent.connect "u1" 2, WsEvent.close 1,
    WsEvent.frame 2 greetFrame, WsEvent.settle 0 okEnv]

/-- User `u1` opens socket 1 and sends a start frame with a text on it; the
socket closes while the platform calls are under way, then they succeed. -/
def lateSettleEvents : List WsEvent :=
  [WsEvent.connect "u1" 1, WsEvent.frame 1 greetFrame, WsEvent.close 1,
    WsEvent.settle 0 okEnv]

/-- User `u1` has two open sockets: socket 1, and the newer socket 2 that
replaced it in `wsClients`; the route of `u1` is `123`.  User `u2` has socket 5
and a route of its own. -/
def replacedSys : Sys :=
  { st := { userBots := [("s1", { id := 0, token := "tok" })],
            wsClients := [("u1", 2), ("u2", 5)],
            activeChats := [("u1", "123"), ("u2", "9")],
            nextClient := 1 },
    live := [(1, "u1"), (2, "u1"), (5, "u2")],
    pending := [] }

/-- User `u1` opens socket 1 and sends a start frame with a text on it, whose
platform calls succeed while the socket is open. -/
def calmEvents : List WsEvent :=
  [WsEvent.connect "u1" 1, WsEvent.frame 1 greetFrame, WsEvent.settle 0 okEnv]

/-! ## Lemmas on the maps -/

namespace JsMap

variable {V : Type}

theorem has_eq_isSome (m : JsMap V) (k : String) : m.has k = (m.get k).isSome := by
  induction m with
  | nil => rfl
  | cons e rest ih =>
    obtain ⟨k', v⟩ := e
    by_cases h : k' = k <;> simp [has, get, h, ih]

theorem get_delete_self (m : JsMap V) (k : String) : (m.delete k).get k = none := by
  induction m with
  | nil => rfl
  | cons e rest ih =>
    obtain ⟨k', v⟩ := e
    by_cases h : k' = k <;> simp [delete, get, h, ih]

theorem get_delete_ne (m : JsMap V) (k k' : String) (hne : k' ≠ k) :
    (m.delete k).get k' = m.get k' := by
  induction m with
  | nil => rfl
  | cons e rest ih =>
    obtain ⟨k0, v⟩ := e
    by_cases h : k0 = k
    · subst h
      have h2 : ¬ k0 = k' := fun h3 => hne h3.symm
      simp [delete, get, h2, ih]
    · by_cases h2 : k0 = k'
      · subst h2
        simp [delete, get, h]
      · simp [delete, get, h, h2, ih]

theorem delete_of_get_none (m : JsMap V) (k : String) (h : m.get k = none) :
    m.delete k = m := by
  induction m with
  | nil => rfl
  | cons e rest ih =>
    obtain ⟨k0, v⟩ := e
    by_cases h0 : k0 = k
    · simp [get, h0] at h
    · simp only [get, h0, if_false] at h
      simp [delete, h0, ih h]

theorem get_set_self (m : JsMap V) (k : String) (v : V) : (m.set k v).get k = some v := by
  induction m with
  | nil => simp [set, get]
  | cons e rest ih =>
    obtain ⟨k0, v0⟩ := e
    by_cases h0 : k0 = k <;> simp [set, get, h0, ih]

theorem get_set_ne (m : JsMap V) (k k' : String) (v : V) (hne : k' ≠ k) :
    (m.set k v).get k' = m.get k' := by
  induction m with
  | nil =>
    have h2 : ¬ k = k' := fun h3 => hne h3.symm
    simp [set, get, h2]
  | cons e rest ih =>
    obtain ⟨k0, v0⟩ := e
    by_cases h0 : k0 = k
    · subst h0
      have h2 : ¬ k0 = k' := fun h3 => hne h3.symm
      simp [set, get, h2]
    · by_cases h2 : k0 = k'
      · subst h2
        simp [set, get, h0]
      · simp [set, get, h0, h2, ih]

theorem countKey_of_get_none (m : JsMap V) (k : String) (h : m.get k = none) :
    m.countKey k = 0 := by
  induction m with
  | nil => rfl
  | cons e rest ih =>
    obtain ⟨k0, v⟩ := e
    by_cases h0 : k0 = k
    · simp [get, h0] at h
    · simp only [get, h0, if_false] at h
      have := ih h
      simp only [countKey] at this ⊢
      simp [List.filter, h0, this]

theorem countKey_set_of_get_none (m : JsMap V) (k : String) (v : V) (h : m.get k = none) :
    (m.set k v).countKey k = 1 := by
  induction m with
  | nil => simp [set, countKey]
  | cons e rest ih =>
    obtain ⟨k0, v0⟩ := e
    by_cases h0 : k0 = k
    · simp [get, h0] at h
    · simp only [get, h0, if_false] at h
      have := ih h
      simp only [countKey] at this ⊢
      simp [set, List.filter, h0, this]

end JsMap

/-! ## Lemmas on the loop -/

section Loop

variable (env : Env) (ws : Option Nat) (client : Nat) (user : Account) (message : String)
  (count : ℚ)

theorem iterations_succ (shown : String) (i n : Nat) :
    iterations ws client user message shown i (n + 1) =
      iteration ws client user message shown i
        ++ iterations ws client user message shown (i + 1) n := by
  simp [iterations, List.range'_succ, List.flatMap_cons]

/-- With enough fuel the loop ends, whatever the platform answers. -/
theorem sendLoop_isSome (n : Nat) (hn : ∀ j : Nat, (j : ℚ) < count → j < n) :
    ∀ (fuel i : Nat), n - i < fuel →
      (sendLoop env ws client user message count fuel i).isSome = true := by
  intro fuel
  induction fuel with
  | zero => intro i h; omega
  | succ fuel ih =>
    intro i h
    unfold sendLoop
    by_cases hi : (i : ℚ) < count
    · have hlt := hn i hi
      rw [if_pos hi]
      cases hs : env.send i with
      | some err => simp
      | none =>
        have h2 := ih (i + 1) (by omega)
        cases hl : sendLoop env ws client user message count fuel (i + 1) with
        | none => rw [hl] at h2; simp at h2
        | some p => simp
    · rw [if_neg hi]; rfl

/-- When no send fails, the loop entered at `i` runs the iterations `i .. n - 1`,
where `n` is the first index that is not below `count`. -/
theorem sendLoop_complete (n : Nat) (hn : ∀ j : Nat, (j : ℚ) < count ↔ j < n)
    (hs : ∀ j, j < n → env.send j = none) :
    ∀ (fuel i : Nat), i ≤ n → n - i < fuel →
      sendLoop env ws client user message count fuel i =
        some (iterations ws client user message (env.numberToString count) i (n - i), none) := by
  intro fuel
  induction fuel with
  | zero => intro i _ h; omega
  | succ fuel ih =>
    intro i hi h
    unfold sendLoop
    by_cases hlt : i < n
    · rw [if_pos ((hn i).2 hlt), hs i hlt]
      simp only
      rw [ih (i + 1) (by omega) (by omega)]
      have hsub : n - i = (n - (i + 1)) + 1 := by omega
      rw [hsub, iterations_succ]
    · have hni : ¬ (i : ℚ) < count := fun h2 => hlt ((hn i).1 h2)
      rw [if_neg hni]
      have hsub : n - i = 0 := by omega
      rw [hsub]
      rfl

/-- When the sends `i .. k - 1` succeed and send `k` fails, the loop entered at
`i` runs the iterations `i .. k - 1`, attempts send `k` and ends with its error. -/
theorem sendLoop_fails (k : Nat) (err : PlatformError) (hk : (k : ℚ) < count)
    (hs : ∀ j, j < k → env.send j = none) (he : env.send k = some err) :
    ∀ (fuel i : Nat), i ≤ k → k - i < fuel →
      sendLoop env ws client user message count fuel i =
        some (iterations ws client user message (env.numberToString count) i (k - i)
          ++ [Event.send client user.id message], some err) := by
  intro fuel
  induction fuel with
  | zero => intro i _ h; omega
  | succ fuel ih =>
    intro i hi h
    unfold sendLoop
    by_cases hlt : i < k
    · have hic : (i : ℚ) < count := lt_trans (Nat.cast_lt.2 hlt) hk
      rw [if_pos hic, hs i hlt]
      simp only
      rw [ih (i + 1) (by omega) (by omega)]
      have hsub : k - i = (k - (i + 1)) + 1 := by omega
      rw [hsub, iterations_succ]
      simp
    · have hik : i = k := by omega
      subst hik
      rw [if_pos hk, he]
      simp [iterations]

end Loop

/-! ## Lemmas on the observations -/

theorem sendsOf_append (a b : List Event) : sendsOf (a ++ b) = sendsOf a ++ sendsOf b := by
  induction a with
  | nil => rfl
  | cons e rest ih => cases e <;> simp [sendsOf, ih]

theorem sendsAndDelays_append (a b : List Event) :
    sendsAndDelays (a ++ b) = sendsAndDelays a ++ sendsAndDelays b := by
  induction a with
  | nil => rfl
  | cons e rest ih => cases e <;> simp [sendsAndDelays, ih]

theorem pushedFrames_append (a b : List Event) :
    pushedFrames (a ++ b) = pushedFrames a ++ pushedFrames b := by
  induction a with
  | nil => rfl
  | cons e rest ih => cases e <;> simp [pushedFrames, ih]

theorem pushedTo_append (socket : Nat) (a b : List Event) :
    pushedTo socket (a ++ b) = pushedTo socket a ++ pushedTo socket b := by
  induction a with
  | nil => rfl
  | cons e rest ih =>
    cases e <;> simp [pushedTo, ih]
    split <;> simp

theorem sendsOf_sendLog (ws : Option Nat) (t : LogType) (m : String) :
    sendsOf (sendLog ws t m) = [] := by
  cases ws <;> rfl

theorem sendsAndDelays_sendLog (ws : Option Nat) (t : LogType) (m : String) :
    sendsAndDelays (sendLog ws t m) = [] := by
  cases ws <;> rfl

theorem pushedFrames_sendLog_some (socket : Nat) (t : LogType) (m : String) :
    pushedFrames (sendLog (some socket) t m) = [Frame.log t m] := rfl

theorem pushedTo_sendLog_some (socket : Nat) (t : LogType) (m : String) :
    pushedTo socket (sendLog (some socket) t m) = [Frame.log t m] := by
  simp [sendLog, pushedTo]

theorem sendsOf_iterations (ws : Option Nat) (client : Nat) (user : Account)
    (message shown : String) (n : Nat) :
    ∀ i, sendsOf (iterations ws client user message shown i n) =
      List.replicate n (Event.send client user.id message) := by
  induction n with
  | zero => intro i; rfl
  | succ n ih =>
    intro i
    rw [iterations_succ, sendsOf_append, ih (i + 1)]
    simp [iteration, sendsOf_append, sendsOf_sendLog, sendsOf, List.replicate_succ]

theorem sendsAndDelays_iterations (ws : Option Nat) (client : Nat) (user : Account)
    (message shown : String) (n : Nat) :
    ∀ i, sendsAndDelays (iterations ws client user message shown i n) =
      (List.replicate n [Event.send client user.id message, Event.delay 500]).flatten := by
  induction n with
  | zero => intro i; rfl
  | succ n ih =>
    intro i
    rw [iterations_succ, sendsAndDelays_append, ih (i + 1)]
    simp [iteration, sendsAndDelays_append, sendsAndDelays_sendLog, sendsAndDelays,
      List.replicate_succ]

theorem pushedFrames_iterations_some (socket client : Nat) (user : Account)
    (message shown : String) (n : Nat) :
    ∀ i, pushedFrames (iterations (some socket) client user message shown i n) =
      (List.range' i n).map (fun j => Frame.log LogType.info (msgProgress j shown)) := by
  induction n with
  | zero => intro i; rfl
  | succ n ih =>
    intro i
    rw [iterations_succ, pushedFrames_append, ih (i + 1)]
    simp [iteration, sendLog, pushedFrames, List.range'_succ]

theorem pushedTo_iterations_some (socket client : Nat) (user : Account)
    (message shown : String) (n : Nat) :
    ∀ i, pushedTo socket (iterations (some socket) client user message shown i n) =
      (List.range' i n).map (fun j => Frame.log LogType.info (msgProgress j shown)) := by
  induction n with
  | zero => intro i; rfl
  | succ n ih =>
    intro i
    rw [iterations_succ, pushedTo_append, ih (i + 1)]
    simp [iteration, sendLog, pushedTo, List.range'_succ]

theorem pushedFrames_iterations_none (client : Nat) (user : Account)
    (message shown : String) (n : Nat) :
    ∀ i, pushedFrames (iterations none client user message shown i n) = [] := by
  induction n with
  | zero => intro i; rfl
  | succ n ih =>
    intro i
    rw [iterations_succ, pushedFrames_append, ih (i + 1)]
    simp [iteration, sendLog, pushedFrames]

/-! ## Lemmas on `/send-message` -/

section SendMessage

variable (env : Env) (st : State) (sess : Session) (body : SendBody)

/-- The result of the `catch` block for an error it has no branch for. -/
theorem sendCatch_otherCode (userId : String) (e : PlatformError) (done : List Event)
    (h : otherCode e) :
    sendCatch st sess userId e done =
      { state := st, session := sess,
        trace := done ++ [Event.consoleErrorObj "Erro ao processar o envio de mensagens:" e],
        outcome := Outcome.responded 500 { message := msgGeneric, bot := none } } := by
  unfold sendCatch
  simp [h.1, h.2]

/-- The result of the `catch` block for the codes 10013 and 50007: the
statement `if (ws)` throws before any frame is written or response sent. -/
theorem sendCatch_branch (userId : String) (e : PlatformError) (done : List Event)
    (h : e.code = ErrCode.num 10013 ∨ e.code = ErrCode.num 50007) :
    sendCatch st sess userId e done =
      { state := st, session := sess,
        trace := done ++ [Event.consoleErrorObj "Erro ao processar o envio de mensagens:" e],
        outcome := Outcome.threw
          { name := "ReferenceError", message := "ws is not defined" } } := by
  unfold sendCatch
  rcases h with h | h
  · simp [h, catchPush, wsInCatch]
  · simp [h, catchPush, wsInCatch]

theorem sendMessage_of_noBot (fuel : Nat) (h : noBotAttached st sess body) :
    sendMessage env st sess body fuel = some (forbidden st sess) := by
  unfold noBotAttached at h
  unfold sendMessage forbidden
  cases hb : st.userBots.get sess.id with
  | none => simp
  | some c =>
    rw [hb] at h
    simp only at h
    simp [h]

/-- The handler past its two guards: a client with the supplied token is in the
pool and the three fields are truthy. -/
theorem sendMessage_valid (fuel : Nat) (c : Client) (u m : String) (q : ℚ)
    (hbot : st.userBots.get sess.id = some c) (htok : body.botToken = some c.token)
    (hu : body.userId = some u) (hu0 : u ≠ "")
    (hm : body.message = some m) (hm0 : m ≠ "")
    (hc : body.count = some q) (hq : q ≠ 0) :
    sendMessage env st sess body fuel =
      match env.fetch u with
      | Except.error err => some (sendCatch st sess u err [Event.fetch c.id u])
      | Except.ok user =>
        match sendLoop env (st.wsClients.get sess.userId) c.id user m q fuel 0 with
        | none => none
        | some (looped, some err) =>
          some (sendCatch st sess u err
            (startTrace (st.wsClients.get sess.userId) c.id user u m (env.numberToString q)
              ++ looped))
        | some (looped, none) =>
          some { state := st, session := sess,
                 trace := startTrace (st.wsClients.get sess.userId) c.id user u m
                     (env.numberToString q) ++ looped
                   ++ sendLog (st.wsClients.get sess.userId) LogType.success msgDone,
                 outcome := Outcome.responded 200
                   { message := msgSuccess (env.numberToString q) user.tag, bot := none } } := by
  unfold sendMessage
  simp only [hbot, htok, hu, hm, hc, truthyStr, truthyNum, Option.getD_some, startTrace]
  simp [hu0, hm0, hq]

end SendMessage

section SendMessageFailure

variable (env : Env) (st : State) (sess : Session) (body : SendBody)

/-- The handler when the fetch of the target account fails: no send, and the
`catch` block is entered right after the fetch. -/
theorem sendMessage_fetch_fails (fuel : Nat) (c : Client) (u m : String) (q : ℚ)
    (err : PlatformError)
    (hbot : st.userBots.get sess.id = some c) (htok : body.botToken = some c.token)
    (hu : body.userId = some u) (hu0 : u ≠ "")
    (hm : body.message = some m) (hm0 : m ≠ "")
    (hc : body.count = some q) (hq : q ≠ 0)
    (hfetch : env.fetch u = Except.error err) :
    sendMessage env st sess body fuel =
      some (sendCatch st sess u err [Event.fetch c.id u]) := by
  rw [sendMessage_valid env st sess body fuel c u m q hbot htok hu hu0 hm hm0 hc hq, hfetch]

/-- The handler when the sends `0 .. k - 1` succeed and send `k` fails: `k`
completed iterations, the failing send, then the `catch` block. -/
theorem sendMessage_send_fails (fuel : Nat) (c : Client) (user : Account) (u m : String) (q : ℚ)
    (k : Nat) (err : PlatformError)
    (hbot : st.userBots.get sess.id = some c) (htok : body.botToken = some c.token)
    (hu : body.userId = some u) (hu0 : u ≠ "")
    (hm : body.message = some m) (hm0 : m ≠ "")
    (hc : body.count = some q) (hq : q ≠ 0)
    (hfetch : env.fetch u = Except.ok user)
    (hk : (k : ℚ) < q) (hs : ∀ j, j < k → env.send j = none) (he : env.send k = some err)
    (hfuel : k < fuel) :
    sendMessage env st sess body fuel =
      some (sendCatch st sess u err
        (startTrace (st.wsClients.get sess.userId) c.id user u m (env.numberToString q)
          ++ (iterations (st.wsClients.get sess.userId) c.id user m (env.numberToString q) 0 k
            ++ [Event.send c.id user.id m]))) := by
  rw [sendMessage_valid env st sess body fuel c u m q hbot htok hu hu0 hm hm0 hc hq, hfetch]
  simp only
  rw [sendLoop_fails env _ c.id user m q k err hk hs he fuel 0 (Nat.zero_le _) (by omega)]
  simp

end SendMessageFailure

theorem otherCode_or_branch (e : PlatformError) :
    otherCode e ∨ (e.code = ErrCode.num 10013 ∨ e.code = ErrCode.num 50007) := by
  unfold otherCode
  by_cases h1 : e.code = ErrCode.num 10013
  · exact Or.inr (Or.inl h1)
  · by_cases h2 : e.code = ErrCode.num 50007
    · exact Or.inr (Or.inr h2)
    · exact Or.inl ⟨h1, h2⟩

theorem filter_isErrorLog_progress (shown : String) (l : List Nat) :
    (l.map (fun j => Frame.log LogType.info (msgProgress j shown))).filter isErrorLog = [] := by
  induction l with
  | nil => rfl
  | cons a rest ih => simp [List.filter, isErrorLog, ih]

/-- The frames pushed by the start of the `try` block followed by `k` completed
iterations and one more send. -/
theorem pushedFrames_until_failure (ws : Option Nat) (client : Nat) (user : Account)
    (u m shown : String) (k : Nat) :
    pushedFrames (startTrace ws client user u m shown
        ++ (iterations ws client user m shown 0 k ++ [Event.send client user.id m])) =
      match ws with
      | none => []
      | some _ => Frame.log LogType.info (msgStart shown user.tag)
          :: (List.range' 0 k).map (fun j => Frame.log LogType.info (msgProgress j shown)) := by
  cases ws with
  | none =>
    simp [startTrace, pushedFrames_append, pushedFrames_iterations_none, sendLog, pushedFrames]
  | some socket =>
    simp [startTrace, pushedFrames_append, pushedFrames_iterations_some, sendLog, pushedFrames]

theorem pushedTo_until_failure (socket : Nat) (ws : Option Nat) (client : Nat) (user : Account)
    (u m shown : String) (k : Nat) :
    pushedTo socket (startTrace ws client user u m shown
        ++ (iterations ws client user m shown 0 k ++ [Event.send client user.id m])) =
      if ws = some socket then
        Frame.log LogType.info (msgStart shown user.tag)
          :: (List.range' 0 k).map (fun j => Frame.log LogType.info (msgProgress j shown))
      else [] := by
  cases ws with
  | none =>
    have h : ∀ n i, pushedTo socket (iterations none client user m shown i n) = [] := by
      intro n
      induction n with
      | zero => intro i; rfl
      | succ n ih =>
        intro i
        rw [iterations_succ, pushedTo_append, ih (i + 1)]
        simp [iteration, sendLog, pushedTo]
    simp [startTrace, pushedTo_append, h, sendLog, pushedTo]
  | some s =>
    by_cases hs : s = socket
    · subst hs
      simp [startTrace, pushedTo_append, pushedTo_iterations_some, sendLog, pushedTo]
    · have h : ∀ n i, pushedTo socket (iterations (some s) client user m shown i n) = [] := by
        intro n
        induction n with
        | zero => intro i; rfl
        | succ n ih =>
          intro i
          rw [iterations_succ, pushedTo_append, ih (i + 1)]
          simp [iteration, sendLog, pushedTo, hs]
      simp [startTrace, pushedTo_append, h, sendLog, pushedTo, hs]

theorem sendCatch_state (st : State) (sess : Session) (u : String) (e : PlatformError)
    (done : List Event) : (sendCatch st sess u e done).state = st := by
  rcases otherCode_or_branch e with h | h
  · rw [sendCatch_otherCode st sess u e done h]
  · rw [sendCatch_branch st sess u e done h]

theorem sendCatch_status (st : State) (sess : Session) (u : String) (e : PlatformError)
    (done : List Event) (b : Body) :
    (sendCatch st sess u e done).outcome ≠ Outcome.responded 403 b := by
  rcases otherCode_or_branch e with h | h
  · rw [sendCatch_otherCode st sess u e done h]
    simp
  · rw [sendCatch_branch st sess u e done h]
    simp

theorem truthyStr_iff (o : Option String) : truthyStr o = true ↔ ∃ s, o = some s ∧ s ≠ "" := by
  cases o with
  | none => simp [truthyStr]
  | some s => simp [truthyStr]

theorem truthyNum_iff (o : Option ℚ) : truthyNum o = true ↔ ∃ q, o = some q ∧ q ≠ 0 := by
  cases o with
  | none => simp [truthyNum]
  | some q => simp [truthyNum]

/-- With fuel above the ceiling of `count` the handler ends. -/
theorem sendMessage_isSome (env : Env) (st : State) (sess : Session) (body : SendBody)
    (fuel : Nat) (hfuel : ⌈body.count.getD 0⌉₊ < fuel) :
    (sendMessage env st sess body fuel).isSome = true := by
  by_cases hno : noBotAttached st sess body
  · rw [sendMessage_of_noBot env st sess body fuel hno]
    rfl
  · unfold noBotAttached at hno
    cases hb : st.userBots.get sess.id with
    | none => rw [hb] at hno; exact absurd trivial hno
    | some c =>
      rw [hb] at hno
      have htok : body.botToken = some c.token := by
        have := not_not.1 hno
        exact this.symm
      by_cases hv : truthyStr body.userId = true ∧ truthyNum body.count = true
          ∧ truthyStr body.message = true
      · obtain ⟨hu, hc, hm⟩ := hv
        obtain ⟨u, hu, hu0⟩ := (truthyStr_iff _).1 hu
        obtain ⟨q, hc, hq⟩ := (truthyNum_iff _).1 hc
        obtain ⟨m, hm, hm0⟩ := (truthyStr_iff _).1 hm
        rw [sendMessage_valid env st sess body fuel c u m q hb htok hu hu0 hm hm0 hc hq]
        cases env.fetch u with
        | error err => rfl
        | ok user =>
          simp only
          have hq2 : ⌈q⌉₊ < fuel := by simpa [hc] using hfuel
          have hl := sendLoop_isSome env (st.wsClients.get sess.userId) c.id user m q ⌈q⌉₊
            (fun j hj => Nat.lt_ceil.2 hj) fuel 0 (by omega)
          cases hres : sendLoop env (st.wsClients.get sess.userId) c.id user m q fuel 0 with
          | none => rw [hres] at hl; simp at hl
          | some p =>
            obtain ⟨looped, r⟩ := p
            cases r <;> rfl
      · unfold sendMessage
        simp only [hb]
        have hv2 : (!truthyStr body.userId || !truthyNum body.count
            || !truthyStr body.message) = true := by
          revert hv
          cases truthyStr body.userId <;> cases truthyNum body.count
            <;> cases truthyStr body.message <;> simp
        simp [htok, hv2]

/-- With a client of the supplied token in the pool, no result of the handler
is a 403 response. -/
theorem sendMessage_not_forbidden (env : Env) (st : State) (sess : Session) (body : SendBody)
    (fuel : Nat) (r : Result) (hno : ¬ noBotAttached st sess body)
    (hr : sendMessage env st sess body fuel = some r) (b : Body) :
    r.outcome ≠ Outcome.responded 403 b := by
  unfold noBotAttached at hno
  cases hb : st.userBots.get sess.id with
  | none => rw [hb] at hno; exact absurd trivial hno
  | some c =>
    rw [hb] at hno
    have htok : body.botToken = some c.token := by
      have := not_not.1 hno
      exact this.symm
    by_cases hv : truthyStr body.userId = true ∧ truthyNum body.count = true
        ∧ truthyStr body.message = true
    · obtain ⟨hu, hc, hm⟩ := hv
      obtain ⟨u, hu, hu0⟩ := (truthyStr_iff _).1 hu
      obtain ⟨q, hc, hq⟩ := (truthyNum_iff _).1 hc
      obtain ⟨m, hm, hm0⟩ := (truthyStr_iff _).1 hm
      rw [sendMessage_valid env st sess body fuel c u m q hb htok hu hu0 hm hm0 hc hq] at hr
      cases hf : env.fetch u with
      | error err =>
        rw [hf] at hr
        simp only [Option.some.injEq] at hr
        rw [← hr]
        exact sendCatch_status _ _ _ _ _ _
      | ok user =>
        rw [hf] at hr
        simp only at hr
        cases hres : sendLoop env (st.wsClients.get sess.userId) c.id user m q fuel 0 with
        | none => rw [hres] at hr; simp at hr
        | some p =>
          obtain ⟨looped, res⟩ := p
          rw [hres] at hr
          cases res with
          | some err =>
            simp only [Option.some.injEq] at hr
            rw [← hr]
            exact sendCatch_status _ _ _ _ _ _
          | none =>
            simp only [Option.some.injEq] at hr
            rw [← hr]
            simp
    · unfold sendMessage at hr
      simp only [hb] at hr
      have hv2 : (!truthyStr body.userId || !truthyNum body.count
          || !truthyStr body.message) = true := by
        revert hv
        cases truthyStr body.userId <;> cases truthyNum body.count
          <;> cases truthyStr body.message <;> simp
      simp [htok, hv2] at hr
      rw [← hr]
      simp

/-! ## The mass-send -/

/-- C1: for every positive integer `N`, when the pool holds a client for the
session whose token is the supplied one, `userId` and `message` are non-empty,
the fetch succeeds and every send succeeds, the handler (given fuel above `N`)
returns the 200 summary after this trace: the fetch, the console line and the
start log, then for `i = 1 .. N` in turn the send of `message` to the fetched
account, the console line, the progress log `i/N` (pushed when a socket is
registered) and the delay of 500 ms, then the success log.  The sends of the
trace are exactly `N` sends of `message` to the fetched account, and sends and
delays alternate: (send, delay 500) repeated `N` times. -/
theorem sendMessage_success (env : Env) (st : State) (sess : Session) (body : SendBody)
    (c : Client) (user : Account) (u m : String) (N fuel : Nat)
    (hN : 0 < N)
    (hbot : st.userBots.get sess.id = some c) (htok : body.botToken = some c.token)
    (hu : body.userId = some u) (hu0 : u ≠ "")
    (hm : body.message = some m) (hm0 : m ≠ "")
    (hc : body.count = some (N : ℚ))
    (hfetch : env.fetch u = Except.ok user)
    (hsend : ∀ i, i < N → env.send i = none)
    (hfuel : N < fuel) :
    sendMessage env st sess body fuel =
        some { state := st, session := sess,
               trace :=
                 [Event.fetch c.id u,
                   Event.consoleLog ("Recebido pedido para enviar " ++ env.numberToString N
                     ++ " mensagem(ns) para \x27" ++ user.tag ++ "\x27 com o texto: \x22"
                     ++ m ++ "\x22")]
                 ++ ((st.wsClients.get sess.userId).map (fun ws =>
                     Event.push ws (Frame.log LogType.info ("Iniciando envio de "
                       ++ env.numberToString N ++ " mensagens para " ++ user.tag
                       ++ "...")))).toList
                 ++ (List.range N).flatMap (fun i =>
                     [Event.send c.id user.id m,
                       Event.consoleLog ("Mensagem " ++ toString (i + 1) ++ "/"
                         ++ env.numberToString N ++ " enviada para " ++ user.tag)]
                     ++ ((st.wsClients.get sess.userId).map (fun ws =>
                         Event.push ws (Frame.log LogType.info ("Mensagem "
                           ++ toString (i + 1) ++ "/" ++ env.numberToString N
                           ++ " enviada.")))).toList
                     ++ [Event.delay 500])
                 ++ ((st.wsClients.get sess.userId).map (fun ws =>
                     Event.push ws
                       (Frame.log LogType.success "Envio concluído com sucesso!"))).toList,
               outcome := Outcome.responded 200
                 { message := "Sucesso! " ++ env.numberToString N
                     ++ " mensagem(ns) enviada(s) para " ++ user.tag ++ ".",
                   bot := none } }
      ∧ (sendMessage env st sess body fuel).map (fun r => sendsOf r.trace) =
          some (List.replicate N (Event.send c.id user.id m))
      ∧ (sendMessage env st sess body fuel).map (fun r => sendsAndDelays r.trace) =
          some (List.replicate N [Event.send c.id user.id m, Event.delay 500]).flatten := by
  have hq : (N : ℚ) ≠ 0 := by exact_mod_cast (Nat.pos_iff_ne_zero.1 hN)
  have hres : sendMessage env st sess body fuel =
      some { state := st, session := sess,
             trace := successTrace (st.wsClients.get sess.userId) c.id user u m
               (env.numberToString N) N,
             outcome := Outcome.responded 200
               { message := msgSuccess (env.numberToString N) user.tag, bot := none } } := by
    rw [sendMessage_valid env st sess body fuel c u m N hbot htok hu hu0 hm hm0 hc hq, hfetch]
    simp only
    rw [sendLoop_complete env _ c.id user m N N (fun j => Nat.cast_lt) hsend fuel 0
      (Nat.zero_le _) (by omega)]
    simp [successTrace]
  rw [hres]
  refine ⟨?_, ?_, ?_⟩
  · have hiter : iterations (st.wsClients.get sess.userId) c.id user m (env.numberToString N) 0 N =
        (List.range N).flatMap (fun i =>
          [Event.send c.id user.id m,
            Event.consoleLog ("Mensagem " ++ toString (i + 1) ++ "/"
              ++ env.numberToString N ++ " enviada para " ++ user.tag)]
          ++ ((st.wsClients.get sess.userId).map (fun ws =>
              Event.push ws (Frame.log LogType.info ("Mensagem "
                ++ toString (i + 1) ++ "/" ++ env.numberToString N
                ++ " enviada.")))).toList
          ++ [Event.delay 500]) := by
      rw [iterations, List.range_eq_range']
      congr 1
      funext i
      cases st.wsClients.get sess.userId <;>
        simp [iteration, sendLog, msgSentTo, msgProgress]
    rw [successTrace, hiter]
    cases st.wsClients.get sess.userId <;>
      simp [startTrace, sendLog, msgReceived, msgStart, msgDone, msgSuccess]
  · simp [successTrace, startTrace, sendsOf_append, sendsOf_sendLog, sendsOf_iterations, sendsOf]
  · simp [successTrace, startTrace, sendsAndDelays_append, sendsAndDelays_sendLog,
      sendsAndDelays_iterations, sendsAndDelays]

/-- Witness for C1: two messages on the concrete state, socket 7 registered. -/
theorem sendMessage_success_witness :
    sendMessage okEnv demoState demoSession (demoBody 2) 3 =
      some { state := demoState, session := demoSession,
             trace := [Event.fetch 0 "123",
               Event.consoleLog
                 "Recebido pedido para enviar 2 mensagem(ns) para \x27ana#0001\x27 com o texto: \x22hi\x22",
               Event.push 7 (Frame.log LogType.info "Iniciando envio de 2 mensagens para ana#0001..."),
               Event.send 0 "123" "hi",
               Event.consoleLog "Mensagem 1/2 enviada para ana#0001",
               Event.push 7 (Frame.log LogType.info "Mensagem 1/2 enviada."),
               Event.delay 500,
               Event.send 0 "123" "hi",
               Event.consoleLog "Mensagem 2/2 enviada para ana#0001",
               Event.push 7 (Frame.log LogType.info "Mensagem 2/2 enviada."),
               Event.delay 500,
               Event.push 7 (Frame.log LogType.success "Envio concluído com sucesso!")],
             outcome := Outcome.responded 200
               { message := "Sucesso! 2 mensagem(ns) enviada(s) para ana#0001.", bot := none } } :=
  (sendMessage_success okEnv demoState demoSession (demoBody 2) { id := 0, token := "tok" }
    { id := "123", tag := "ana#0001" } "123" "hi" 2 3 (by decide) rfl rfl rfl (by decide) rfl
    (by decide) rfl rfl (fun _ _ => rfl) (by decide)).1.trans (by decide)

/-- C2, at the failing input (count 3, the target refuses the first DM with
platform code 50007): the handler attempts exactly one send and no further
one, but then the `catch` block throws a `ReferenceError` on `ws`: no 500
response with the delivery-refused message is produced. -/
theorem sendMessage_refused_throws :
    sendMessage (failingEnv 0 (ErrCode.num 50007)) demoState demoSession (demoBody 3) 4 =
      some { state := demoState, session := demoSession,
             trace := [Event.fetch 0 "123",
               Event.consoleLog (msgReceived "3" "ana#0001" "hi"),
               Event.push 7 (Frame.log LogType.info (msgStart "3" "ana#0001")),
               Event.send 0 "123" "hi",
               Event.consoleErrorObj "Erro ao processar o envio de mensagens:"
                 (errWith (ErrCode.num 50007))],
             outcome := Outcome.threw
               { name := "ReferenceError", message := "ws is not defined" } } := by
  rfl

/-- C3, as stated, fails for `N = 3`: the frames pushed on the registered
socket are five, the start log first, not the four frames of the claim. -/
theorem sendMessage_pushes_counterexample :
    (sendMessage okEnv demoState demoSession (demoBody 3) 4).map
        (fun r => pushedTo 7 r.trace) ≠
      some ((List.range 3).map (fun i => Frame.log LogType.info (msgProgress i "3"))
        ++ [Frame.log LogType.success msgDone])
    ∧ (sendMessage okEnv demoState demoSession (demoBody 3) 4).map
        (fun r => (pushedTo 7 r.trace).length) = some 5 := by
  decide

/-- C3, amended: for every `N ≥ 1`, when a socket is registered for the
requesting user and no platform call fails, the frames the mass-send pushes
(all of them go to that socket) are the start log, then the `N` progress logs
for `i = 1 .. N` in increasing order, then one success log: `N + 2` frames. -/
theorem sendMessage_pushes (env : Env) (st : State) (sess : Session) (body : SendBody)
    (c : Client) (user : Account) (u m : String) (N fuel socket : Nat)
    (hN : 0 < N)
    (hbot : st.userBots.get sess.id = some c) (htok : body.botToken = some c.token)
    (hu : body.userId = some u) (hu0 : u ≠ "")
    (hm : body.message = some m) (hm0 : m ≠ "")
    (hc : body.count = some (N : ℚ))
    (hfetch : env.fetch u = Except.ok user)
    (hsend : ∀ i, i < N → env.send i = none)
    (hws : st.wsClients.get sess.userId = some socket)
    (hfuel : N < fuel) :
    (sendMessage env st sess body fuel).map (fun r => pushedTo socket r.trace) =
        some (Frame.log LogType.info (msgStart (env.numberToString N) user.tag)
          :: (List.range N).map
              (fun i => Frame.log LogType.info (msgProgress i (env.numberToString N)))
          ++ [Frame.log LogType.success msgDone])
    ∧ (sendMessage env st sess body fuel).map (fun r => pushedFrames r.trace) =
        (sendMessage env st sess body fuel).map (fun r => pushedTo socket r.trace)
    ∧ (sendMessage env st sess body fuel).map (fun r => (pushedFrames r.trace).length) =
        some (N + 2) := by
  have hq : (N : ℚ) ≠ 0 := by exact_mod_cast (Nat.pos_iff_ne_zero.1 hN)
  rw [sendMessage_valid env st sess body fuel c u m N hbot htok hu hu0 hm hm0 hc hq, hfetch]
  simp only
  rw [sendLoop_complete env _ c.id user m N N (fun j => Nat.cast_lt) hsend fuel 0
    (Nat.zero_le _) (by omega), hws]
  simp [startTrace, pushedTo_append, pushedFrames_append, pushedTo_iterations_some,
    pushedFrames_iterations_some, sendLog, pushedTo, pushedFrames, List.range_eq_range']

/-- Witness for the amended C3: three messages, socket 7. -/
theorem sendMessage_pushes_witness :
    (sendMessage okEnv demoState demoSession (demoBody 3) 4).map (fun r => pushedTo 7 r.trace) =
      some [Frame.log LogType.info (msgStart "3" "ana#0001"),
        Frame.log LogType.info (msgProgress 0 "3"),
        Frame.log LogType.info (msgProgress 1 "3"),
        Frame.log LogType.info (msgProgress 2 "3"),
        Frame.log LogType.success msgDone] :=
  (sendMessage_pushes okEnv demoState demoSession (demoBody 3) { id := 0, token := "tok" }
    { id := "123", tag := "ana#0001" } "123" "hi" 3 4 7 (by decide) rfl rfl rfl (by decide) rfl
    (by decide) rfl rfl (fun _ _ => rfl) rfl (by decide)).1

/-- C4, as stated, fails: socket 7 is registered, the first send is rejected
with an error that carries no code; the 500 failure is returned and the only
frame pushed is the start log, no `error` log. -/
theorem sendMessage_error_log_counterexample :
    (sendMessage (failingEnv 0 ErrCode.absent) demoState demoSession (demoBody 3) 4).map
        (fun r => (r.outcome, pushedTo 7 r.trace)) =
      some (Outcome.responded 500 { message := msgGeneric, bot := none },
        [Frame.log LogType.info (msgStart "3" "ana#0001")]) := by
  rfl

/-- C4, amended: when a mass-send fails in a platform call (the fetch, or a
send after `k` successful ones) with an error whose code is neither 10013 nor
50007, the generic 500 failure is returned and no frame of type `error` is
pushed, whether or not a socket is registered; with no socket registered
nothing at all is pushed. -/
theorem sendMessage_failure_logs (env : Env) (st : State) (sess : Session) (body : SendBody)
    (c : Client) (u m : String) (q : ℚ) (fuel : Nat) (err : PlatformError)
    (hbot : st.userBots.get sess.id = some c) (htok : body.botToken = some c.token)
    (hu : body.userId = some u) (hu0 : u ≠ "")
    (hm : body.message = some m) (hm0 : m ≠ "")
    (hc : body.count = some q) (hq : q ≠ 0)
    (hfail : env.fetch u = Except.error err ∨
      ∃ (user : Account) (k : Nat), env.fetch u = Except.ok user ∧ (k : ℚ) < q ∧
        (∀ j, j < k → env.send j = none) ∧ env.send k = some err)
    (hcode : otherCode err)
    (hfuel : ⌈q⌉₊ < fuel) :
    (sendMessage env st sess body fuel).map (fun r => r.outcome) =
        some (Outcome.responded 500 { message := msgGeneric, bot := none })
    ∧ (sendMessage env st sess body fuel).map
        (fun r => (pushedFrames r.trace).filter isErrorLog) = some []
    ∧ (st.wsClients.get sess.userId = none →
        (sendMessage env st sess body fuel).map (fun r => pushedFrames r.trace) = some []) := by
  rcases hfail with hf | ⟨user, k, hf, hk, hs, he⟩
  · rw [sendMessage_fetch_fails env st sess body fuel c u m q err hbot htok hu hu0 hm hm0 hc hq hf,
      sendCatch_otherCode st sess u err _ hcode]
    simp [pushedFrames]
  · have hkf : k < fuel := lt_trans (Nat.lt_ceil.2 hk) hfuel
    rw [sendMessage_send_fails env st sess body fuel c user u m q k err hbot htok hu hu0 hm hm0
      hc hq hf hk hs he hkf, sendCatch_otherCode st sess u err _ hcode]
    simp only [Option.map_some']
    rw [pushedFrames_append, pushedFrames_until_failure]
    refine ⟨trivial, ?_, ?_⟩
    · cases st.wsClients.get sess.userId with
      | none => simp [pushedFrames]
      | some socket =>
        simp only [pushedFrames, List.append_nil, List.filter_cons, isErrorLog,
          filter_isErrorLog_progress]
        simp
    · intro hws
      rw [hws]
      simp [pushedFrames]

/-- Witness for the amended C4: the second of three sends is rejected without
a code. -/
theorem sendMessage_failure_logs_witness :
    (sendMessage (failingEnv 1 ErrCode.absent) demoState demoSession (demoBody 3) 4).map
        (fun r => (pushedFrames r.trace).filter isErrorLog) = some [] :=
  (sendMessage_failure_logs (failingEnv 1 ErrCode.absent) demoState demoSession (demoBody 3)
    { id := 0, token := "tok" } "123" "hi" 3 4 (errWith ErrCode.absent) rfl rfl rfl (by decide)
    rfl (by decide) rfl (by norm_num)
    (Or.inr ⟨{ id := "123", tag := "ana#0001" }, 1, rfl, by norm_num,
      fun j hj => by
        have h0 : j = 0 := by omega
        subst h0
        rfl,
      rfl⟩)
    (by decide) (by norm_num)).2.1

/-- C5, as stated, fails: the fetch of account `123` is rejected with platform
code 50035; the returned failure is the generic one, not the unknown-account
failure, and its message does not contain `123`. -/
theorem sendMessage_fetch_failure_counterexample :
    (sendMessage (noFetchEnv (ErrCode.num 50035)) demoState demoSession (demoBody 3) 4).map
        (fun r => r.outcome) =
      some (Outcome.responded 500 { message := msgGeneric, bot := none })
    ∧ msgGeneric ≠ msgUnknownUser "123"
    ∧ ¬ ("123".toList <:+: msgGeneric.toList) := by
  decide

/-- C5, amended: when the fetch of the target account fails, with any platform
error, no send is attempted (the trace up to the `catch` block is the fetch
alone); when the code of the error is neither 10013 nor 50007 the returned
failure is the generic 500 failure with its fixed message. -/
theorem sendMessage_fetch_failure (env : Env) (st : State) (sess : Session) (body : SendBody)
    (c : Client) (u m : String) (q : ℚ) (fuel : Nat) (err : PlatformError)
    (hbot : st.userBots.get sess.id = some c) (htok : body.botToken = some c.token)
    (hu : body.userId = some u) (hu0 : u ≠ "")
    (hm : body.message = some m) (hm0 : m ≠ "")
    (hc : body.count = some q) (hq : q ≠ 0)
    (hfetch : env.fetch u = Except.error err) :
    (sendMessage env st sess body fuel).map (fun r => r.trace) =
        some [Event.fetch c.id u,
          Event.consoleErrorObj "Erro ao processar o envio de mensagens:" err]
    ∧ (sendMessage env st sess body fuel).map (fun r => sendsOf r.trace) = some []
    ∧ (otherCode err →
        (sendMessage env st sess body fuel).map (fun r => r.outcome) =
          some (Outcome.responded 500 { message := msgGeneric, bot := none })) := by
  rw [sendMessage_fetch_fails env st sess body fuel c u m q err hbot htok hu hu0 hm hm0 hc hq
    hfetch]
  rcases otherCode_or_branch err with h | h
  · rw [sendCatch_otherCode st sess u err _ h]
    simp [sendsOf]
  · rw [sendCatch_branch st sess u err _ h]
    refine ⟨by simp, by simp [sendsOf], ?_⟩
    intro ho
    rcases h with h | h
    · exact absurd h ho.1
    · exact absurd h ho.2

/-- Witness for the amended C5: the fetch is rejected with code 50035. -/
theorem sendMessage_fetch_failure_witness :
    (sendMessage (noFetchEnv (ErrCode.num 50035)) demoState demoSession (demoBody 3) 0).map
        (fun r => sendsOf r.trace) = some [] :=
  (sendMessage_fetch_failure (noFetchEnv (ErrCode.num 50035)) demoState demoSession (demoBody 3)
    { id := 0, token := "tok" } "123" "hi" 3 0 (errWith (ErrCode.num 50035)) rfl rfl rfl
    (by decide) rfl (by decide) rfl (by norm_num) rfl).2.1

/-- C6: two runs of the mass-send on the same state and request that fail at
the same platform call (both at the fetch, or both at send `k` after the same
fetched account), with errors whose codes are neither 10013 nor 50007 but are
otherwise arbitrary (code, message, stack), both answer 500 with the fixed
generic message and push the same frames, overall and on every socket. -/
theorem sendMessage_generic_failure_uniform (env1 env2 : Env) (st : State) (sess : Session)
    (body : SendBody) (c : Client) (u m : String) (q : ℚ) (fuel : Nat) (e1 e2 : PlatformError)
    (hbot : st.userBots.get sess.id = some c) (htok : body.botToken = some c.token)
    (hu : body.userId = some u) (hu0 : u ≠ "")
    (hm : body.message = some m) (hm0 : m ≠ "")
    (hc : body.count = some q) (hq : q ≠ 0)
    (hshow : env1.numberToString = env2.numberToString)
    (hfail : (env1.fetch u = Except.error e1 ∧ env2.fetch u = Except.error e2) ∨
      ∃ (user : Account) (k : Nat), env1.fetch u = Except.ok user ∧
        env2.fetch u = Except.ok user ∧ (k : ℚ) < q ∧
        (∀ j, j < k → env1.send j = none ∧ env2.send j = none) ∧
        env1.send k = some e1 ∧ env2.send k = some e2)
    (h1 : otherCode e1) (h2 : otherCode e2)
    (hfuel : ⌈q⌉₊ < fuel) :
    (sendMessage env1 st sess body fuel).map (fun r => r.outcome) =
        some (Outcome.responded 500 { message := msgGeneric, bot := none })
    ∧ (sendMessage env2 st sess body fuel).map (fun r => r.outcome) =
        some (Outcome.responded 500 { message := msgGeneric, bot := none })
    ∧ (sendMessage env1 st sess body fuel).map (fun r => pushedFrames r.trace) =
        (sendMessage env2 st sess body fuel).map (fun r => pushedFrames r.trace)
    ∧ (∀ socket, (sendMessage env1 st sess body fuel).map (fun r => pushedTo socket r.trace) =
        (sendMessage env2 st sess body fuel).map (fun r => pushedTo socket r.trace))
    ∧ (sendMessage env1 st sess body fuel).isSome = true := by
  rcases hfail with ⟨hf1, hf2⟩ | ⟨user, k, hf1, hf2, hk, hs, he1, he2⟩
  · rw [sendMessage_fetch_fails env1 st sess body fuel c u m q e1 hbot htok hu hu0 hm hm0 hc hq
        hf1,
      sendMessage_fetch_fails env2 st sess body fuel c u m q e2 hbot htok hu hu0 hm hm0 hc hq
        hf2,
      sendCatch_otherCode st sess u e1 _ h1, sendCatch_otherCode st sess u e2 _ h2]
    simp [pushedFrames, pushedTo]
  · have hkf : k < fuel := lt_trans (Nat.lt_ceil.2 hk) hfuel
    rw [sendMessage_send_fails env1 st sess body fuel c user u m q k e1 hbot htok hu hu0 hm hm0
        hc hq hf1 hk (fun j hj => (hs j hj).1) he1 hkf,
      sendMessage_send_fails env2 st sess body fuel c user u m q k e2 hbot htok hu hu0 hm hm0
        hc hq hf2 hk (fun j hj => (hs j hj).2) he2 hkf,
      sendCatch_otherCode st sess u e1 _ h1, sendCatch_otherCode st sess u e2 _ h2, hshow]
    simp [pushedFrames_append, pushedTo_append, pushedFrames, pushedTo]

/-- Witness for C6: the first send fails, once without a code and with one
message, once with code 50001 and another message and stack. -/
theorem sendMessage_generic_failure_uniform_witness :
    (sendMessage (failingEnv 0 ErrCode.absent) demoState demoSession (demoBody 3) 4).map
        (fun r => pushedFrames r.trace) =
      (sendMessage
        missingAccessEnv
        demoState demoSession (demoBody 3) 4).map (fun r => pushedFrames r.trace) :=
  (sendMessage_generic_failure_uniform (failingEnv 0 ErrCode.absent)
    missingAccessEnv
    demoState demoSession (demoBody 3) { id := 0, token := "tok" } "123" "hi" 3 4
    (errWith ErrCode.absent) missingAccess
    rfl rfl rfl (by decide) rfl (by decide) rfl (by norm_num) rfl
    (Or.inr ⟨{ id := "123", tag := "ana#0001" }, 0, rfl, rfl, by norm_num,
      fun j hj => absurd hj (Nat.not_lt_zero j), rfl, rfl⟩)
    (by decide) (by decide) (by norm_num)).2.2.1

/-- C7: the handler answers 403 exactly when the pool has no client for the
session or the stored client has another token than the supplied one.  In that
case, for every fuel and whatever `userId`, `count` and `message` are, the
result is the 403 response with an empty trace (no platform call, no frame
pushed) and the state it was given.  Otherwise no result is a 403 response.
With fuel above the ceiling of `count` a result exists. -/
theorem sendMessage_forbidden_iff (env : Env) (st : State) (sess : Session) (body : SendBody) :
    (∀ fuel, ⌈body.count.getD 0⌉₊ < fuel → (sendMessage env st sess body fuel).isSome = true)
    ∧ (∀ fuel r, sendMessage env st sess body fuel = some r →
        ((r.outcome = Outcome.responded 403 { message := msgNoBot, bot := none }
            ↔ noBotAttached st sess body)
          ∧ ((∃ b, r.outcome = Outcome.responded 403 b) ↔ noBotAttached st sess body)))
    ∧ (noBotAttached st sess body → ∀ fuel,
        sendMessage env st sess body fuel =
          some { state := st, session := sess, trace := [],
                 outcome := Outcome.responded 403 { message := msgNoBot, bot := none } }) := by
  refine ⟨fun fuel h => sendMessage_isSome env st sess body fuel h, ?_, ?_⟩
  · intro fuel r hr
    by_cases hno : noBotAttached st sess body
    · rw [sendMessage_of_noBot env st sess body fuel hno] at hr
      simp only [Option.some.injEq] at hr
      rw [← hr]
      simp [forbidden, hno]
    · have hne := sendMessage_not_forbidden env st sess body fuel r hno hr
      constructor
      · exact ⟨fun h => absurd h (hne _), fun h => absurd h hno⟩
      · exact ⟨fun ⟨b, h⟩ => absurd h (hne b), fun h => absurd h hno⟩
  · intro hno fuel
    rw [sendMessage_of_noBot env st sess body fuel hno]
    rfl

/-- Witness for C7: empty pool, empty body, no fuel: the 403 response, no
effect, the state as it was. -/
theorem sendMessage_forbidden_witness :
    sendMessage okEnv noBotState demoSession
        { userId := none, count := none, message := none, botToken := some "tok" } 0 =
      some { state := noBotState, session := demoSession, trace := [],
             outcome := Outcome.responded 403 { message := msgNoBot, bot := none } } :=
  (sendMessage_forbidden_iff okEnv noBotState demoSession
    { userId := none, count := none, message := none, botToken := some "tok" }).2.2 trivial 0

/-! ## The pool: attach and detach -/

theorem detachExisting_of_some (m : JsMap Client) (k : String) (old : Client)
    (h : m.get k = some old) :
    detachExisting m k = (m.delete k, [Event.destroy old.id]) := by
  unfold detachExisting
  rw [JsMap.has_eq_isSome, h]
  rfl

theorem detachExisting_of_none (m : JsMap Client) (k : String) (h : m.get k = none) :
    detachExisting m k = (m, []) := by
  unfold detachExisting
  rw [JsMap.has_eq_isSome, h]
  rfl

theorem detachExisting_fst (m : JsMap Client) (k : String) :
    (detachExisting m k).1 = m.delete k := by
  cases h : m.get k with
  | none => rw [detachExisting_of_none m k h, JsMap.delete_of_get_none m k h]
  | some old => rw [detachExisting_of_some m k old h]

theorem incorporate_eq_of_login_error (env : Env) (st : State) (sess : Session) (tok : String)
    (err : PlatformError) (htok : tok ≠ "") (hlogin : env.login tok = Except.error err) :
    incorporate env st sess (some tok) =
      { state := { st with userBots := (detachExisting st.userBots sess.id).1,
                           nextClient := st.nextClient + 1 },
        session := sess,
        trace := (detachExisting st.userBots sess.id).2 ++ [Event.login st.nextClient tok,
          Event.consoleError "Falha ao incorporar bot:" err.message],
        outcome := Outcome.responded 401 { message := msgInvalidToken, bot := none } } := by
  unfold incorporate
  simp [truthyStr, htok, hlogin]

theorem incorporate_eq_of_login_ok (env : Env) (st : State) (sess : Session) (tok : String)
    (p : Profile) (htok : tok ≠ "") (hlogin : env.login tok = Except.ok p) :
    incorporate env st sess (some tok) =
      { state := { st with
            userBots := (detachExisting st.userBots sess.id).1.set sess.id
              { id := st.nextClient, token := p.token },
            nextClient := st.nextClient + 1 },
        session := { sess with
          incorporatedBot := some (IncorporatedBot.mk p.username p.avatarURL tok) },
        trace := (detachExisting st.userBots sess.id).2
          ++ [Event.login st.nextClient tok, Event.sessionSave],
        outcome := Outcome.responded 200
          { message := msgIncorporated,
            bot := some { name := p.username, avatar := p.avatarURL } } } := by
  unfold incorporate
  simp [truthyStr, htok, hlogin]

/-- C8: when `/bots/incorporate` is called with a non-empty token and the login
is rejected, the answer is 401 and the pool has no entry for the session
afterwards; a client the session had before was destroyed (before the login)
and removed; the entries of all other sessions, the other two maps and the
stored session data are as before. -/
theorem incorporate_rejected (env : Env) (st : State) (sess : Session) (tok : String)
    (err : PlatformError) (htok : tok ≠ "") (hlogin : env.login tok = Except.error err) :
    (incorporate env st sess (some tok)).outcome =
        Outcome.responded 401 { message := msgInvalidToken, bot := none }
    ∧ (incorporate env st sess (some tok)).state.userBots.get sess.id = none
    ∧ (incorporate env st sess (some tok)).state.userBots.has sess.id = false
    ∧ (incorporate env st sess (some tok)).state.userBots.countKey sess.id = 0
    ∧ (∀ old, st.userBots.get sess.id = some old →
        (incorporate env st sess (some tok)).trace =
          [Event.destroy old.id, Event.login st.nextClient tok,
            Event.consoleError "Falha ao incorporar bot:" err.message])
    ∧ (∀ s, s ≠ sess.id →
        (incorporate env st sess (some tok)).state.userBots.get s = st.userBots.get s)
    ∧ (incorporate env st sess (some tok)).state.wsClients = st.wsClients
    ∧ (incorporate env st sess (some tok)).state.activeChats = st.activeChats
    ∧ (incorporate env st sess (some tok)).session = sess := by
  rw [incorporate_eq_of_login_error env st sess tok err htok hlogin, detachExisting_fst]
  have hget : (st.userBots.delete sess.id).get sess.id = none :=
    JsMap.get_delete_self st.userBots sess.id
  refine ⟨rfl, hget, ?_, ?_, ?_, ?_, rfl, rfl, rfl⟩
  · simp only
    rw [JsMap.has_eq_isSome, hget]
    rfl
  · exact JsMap.countKey_of_get_none _ _ hget
  · intro old hold
    simp only
    rw [detachExisting_of_some st.userBots sess.id old hold]
    rfl
  · intro s hs
    exact JsMap.get_delete_ne st.userBots sess.id s hs

/-- Witness for C8: session `s1` had a working client and loses it; session
`s0` keeps its client. -/
theorem incorporate_rejected_witness :
    (incorporate rejectEnv twoBotState demoSession (some "bad")).state.userBots.get "s1" = none
    ∧ (incorporate rejectEnv twoBotState demoSession (some "bad")).state.userBots.get "s0" =
        some { id := 0, token := "other" }
    ∧ (incorporate rejectEnv twoBotState demoSession (some "bad")).trace =
        [Event.destroy 1, Event.login 2 "bad",
          Event.consoleError "Falha ao incorporar bot:" "request failed"] :=
  ⟨(incorporate_rejected rejectEnv twoBotState demoSession "bad"
      (errWith (ErrCode.str "TokenInvalid")) (by decide) rfl).2.1,
    (incorporate_rejected rejectEnv twoBotState demoSession "bad"
      (errWith (ErrCode.str "TokenInvalid")) (by decide) rfl).2.2.2.2.2.1 "s0" (by decide),
    (incorporate_rejected rejectEnv twoBotState demoSession "bad"
      (errWith (ErrCode.str "TokenInvalid")) (by decide) rfl).2.2.2.2.1
      { id := 1, token := "tok" } rfl⟩

/-- C9: two attaches in a row for the same session, both with a credential the
platform accepts.  After the first the pool holds the client created for `c1`
(object `st.nextClient`).  The second call destroys that client, and only then
logs in a new client with `c2`: its trace is destroy, login, session save.
Afterwards the pool has exactly one entry for the session, and it is the
client logged in with `c2`. -/
theorem incorporate_twice (env : Env) (st : State) (sess : Session) (c1 c2 : String)
    (p1 p2 : Profile) (h1 : c1 ≠ "") (h2 : c2 ≠ "")
    (hl1 : env.login c1 = Except.ok p1) (hl2 : env.login c2 = Except.ok p2) :
    (incorporate env st sess (some c1)).state.userBots.get sess.id =
        some { id := st.nextClient, token := p1.token }
    ∧ Event.login st.nextClient c1 ∈ (incorporate env st sess (some c1)).trace
    ∧ (incorporate env (incorporate env st sess (some c1)).state
          (incorporate env st sess (some c1)).session (some c2)).trace =
        [Event.destroy st.nextClient, Event.login (st.nextClient + 1) c2, Event.sessionSave]
    ∧ (incorporate env (incorporate env st sess (some c1)).state
          (incorporate env st sess (some c1)).session (some c2)).state.userBots.countKey sess.id
        = 1
    ∧ (incorporate env (incorporate env st sess (some c1)).state
          (incorporate env st sess (some c1)).session (some c2)).state.userBots.get sess.id =
        some { id := st.nextClient + 1, token := p2.token }
    ∧ (incorporate env (incorporate env st sess (some c1)).state
          (incorporate env st sess (some c1)).session (some c2)).outcome =
        Outcome.responded 200
          { message := msgIncorporated,
            bot := some { name := p2.username, avatar := p2.avatarURL } } := by
  have hfirst : (incorporate env st sess (some c1)).state.userBots.get sess.id =
      some { id := st.nextClient, token := p1.token } := by
    rw [incorporate_eq_of_login_ok env st sess c1 p1 h1 hl1]
    exact JsMap.get_set_self _ _ _
  have hid : (incorporate env st sess (some c1)).session.id = sess.id := by
    rw [incorporate_eq_of_login_ok env st sess c1 p1 h1 hl1]
  have hnext : (incorporate env st sess (some c1)).state.nextClient = st.nextClient + 1 := by
    rw [incorporate_eq_of_login_ok env st sess c1 p1 h1 hl1]
  refine ⟨hfirst, ?_, ?_⟩
  · rw [incorporate_eq_of_login_ok env st sess c1 p1 h1 hl1]
    simp
  · rw [incorporate_eq_of_login_ok env (incorporate env st sess (some c1)).state
      (incorporate env st sess (some c1)).session c2 p2 h2 hl2]
    simp only [hid, hnext]
    rw [detachExisting_of_some _ sess.id _ hfirst]
    refine ⟨rfl, ?_, ?_, trivial⟩
    · exact JsMap.countKey_set_of_get_none _ _ _ (JsMap.get_delete_self _ _)
    · exact JsMap.get_set_self _ _ _

/-- Witness for C9: session `s1` attaches `first` and then `second` on a pool
that also serves session `s0`. -/
theorem incorporate_twice_witness :
    (incorporate okEnv (incorporate okEnv twoBotState demoSession (some "first")).state
        (incorporate okEnv twoBotState demoSession (some "first")).session
        (some "second")).trace =
      [Event.destroy 2, Event.login 3 "second", Event.sessionSave] :=
  (incorporate_twice okEnv twoBotState demoSession "first" "second"
    { username := "helper", avatarURL := "cdn/helper.png", token := "first" }
    { username := "helper", avatarURL := "cdn/helper.png", token := "second" }
    (by decide) (by decide) rfl rfl).2.2.1

/-- C10: `/bots/disconnect` called twice in a row answers 200 both times and
leaves no pool entry for the session; the second call finds the state and the
session data the first one left, changes neither and destroys no client (its
only effect is the session save).  When the session has no entry, a call
leaves the whole state unchanged and destroys no client. -/
theorem disconnect_twice (st : State) (sess : Session) :
    (disconnect st sess).outcome =
        Outcome.responded 200 { message := msgDisconnected, bot := none }
    ∧ (disconnect (disconnect st sess).state (disconnect st sess).session).outcome =
        Outcome.responded 200 { message := msgDisconnected, bot := none }
    ∧ (disconnect st sess).state.userBots.get sess.id = none
    ∧ (disconnect st sess).state.userBots.countKey sess.id = 0
    ∧ (disconnect (disconnect st sess).state (disconnect st sess).session).state =
        (disconnect st sess).state
    ∧ (disconnect (disconnect st sess).state (disconnect st sess).session).session =
        (disconnect st sess).session
    ∧ (disconnect (disconnect st sess).state (disconnect st sess).session).trace =
        [Event.sessionSave]
    ∧ (st.userBots.get sess.id = none →
        (disconnect st sess).state = st ∧ (disconnect st sess).trace = [Event.sessionSave]) := by
  have hget : (disconnect st sess).state.userBots.get sess.id = none := by
    simp only [disconnect, detachExisting_fst]
    exact JsMap.get_delete_self _ _
  have hnone : ∀ (st0 : State) (s0 : Session), st0.userBots.get s0.id = none →
      (disconnect st0 s0).state = st0 ∧ (disconnect st0 s0).trace = [Event.sessionSave] := by
    intro st0 s0 h
    unfold disconnect
    rw [detachExisting_of_none _ _ h]
    exact ⟨rfl, rfl⟩
  have hid : (disconnect st sess).session.id = sess.id := rfl
  have hsecond := hnone (disconnect st sess).state (disconnect st sess).session
    (by rw [hid]; exact hget)
  refine ⟨rfl, rfl, hget, JsMap.countKey_of_get_none _ _ hget, hsecond.1, rfl, hsecond.2,
    hnone st sess⟩

/-- Witness for C10: session `s1` has no entry in `noBotState`; the call
leaves the state as it is. -/
theorem disconnect_twice_witness :
    (disconnect noBotState demoSession).state = noBotState
    ∧ (disconnect noBotState demoSession).trace = [Event.sessionSave] :=
  (disconnect_twice noBotState demoSession).2.2.2.2.2.2.2 rfl

/-! ## The chat relay: browser frames -/

namespace JsMap

variable {V : Type}

theorem countKey_set_self (m : JsMap V) (k : String) (v : V) :
    (m.set k v).countKey k = max 1 (m.countKey k) := by
  induction m with
  | nil => simp [set, countKey]
  | cons e rest ih =>
    obtain ⟨k0, v0⟩ := e
    by_cases h0 : k0 = k
    · subst h0
      simp [set, countKey, List.filter]
    · simp only [countKey] at ih ⊢
      simp [set, List.filter, h0, ih]

end JsMap

/-- The result of a chat frame when the fetch and the send succeed. -/
theorem handleWsMessage_chat_ok (env : Env) (st : State) (u : String) (action : Option String)
    (d : ChatData) (acct : Account)
    (hf : env.fetch d.targetUserId = Except.ok acct) (hs : env.send 0 = none) :
    handleWsMessage env st u (RawFrame.value (some "chat") action (some d)) =
      { state := { st with
          activeChats := (if action = some "start" then st.activeChats.set u d.targetUserId
            else st.activeChats) },
        trace := [Event.houseFetch d.targetUserId, Event.houseSend acct.id d.message]
          ++ sendLog (st.wsClients.get u) LogType.info (msgRelayed acct.tag d.message),
        escaped := none } := by
  simp [handleWsMessage, hf, hs]

/-- The result of a chat frame when the fetch fails. -/
theorem handleWsMessage_chat_fetch_fails (env : Env) (st : State) (u : String)
    (action : Option String) (d : ChatData) (err : PlatformError)
    (hf : env.fetch d.targetUserId = Except.error err) :
    handleWsMessage env st u (RawFrame.value (some "chat") action (some d)) =
      { state := st,
        trace := [Event.houseFetch d.targetUserId, Event.consoleErrorObj labelWsError err],
        escaped := none } := by
  simp [handleWsMessage, hf]

/-- The result of a chat frame when the fetch succeeds and the send fails. -/
theorem handleWsMessage_chat_send_fails (env : Env) (st : State) (u : String)
    (action : Option String) (d : ChatData) (acct : Account) (err : PlatformError)
    (hf : env.fetch d.targetUserId = Except.ok acct) (hs : env.send 0 = some err) :
    handleWsMessage env st u (RawFrame.value (some "chat") action (some d)) =
      { state := st,
        trace := [Event.houseFetch d.targetUserId, Event.houseSend acct.id d.message,
          Event.consoleErrorObj labelWsError err],
        escaped := none } := by
  simp [handleWsMessage, hf, hs]

theorem houseCalls_sendLog (ws : Option Nat) (t : LogType) (m : String) :
    houseCalls (sendLog ws t m) = [] := by
  cases ws <;> rfl

/-- C12, at the failing input: the start frame of the browser (target `123`,
no message) from user `u1`, on a platform that rejects the send of an absent
message with code 50006.  The handler fetches the account and attempts the
send; the send fails and the route of `u1` is not set. -/
theorem handleWsMessage_start_frame :
    handleWsMessage (failingEnv 0 (ErrCode.num 50006)) demoState "u1" startFrame =
      { state := demoState,
        trace := [Event.houseFetch "123", Event.houseSend "123" none,
          Event.consoleErrorObj labelWsError (errWith (ErrCode.num 50006))],
        escaped := none }
    ∧ (handleWsMessage (failingEnv 0 (ErrCode.num 50006)) demoState "u1"
        startFrame).state.activeChats.get "u1" = none
    ∧ houseCalls (handleWsMessage okEnv demoState "u1" startFrame).trace =
        [Event.houseFetch "123", Event.houseSend "123" none] := by
  decide

/-- What a chat frame with action `start` and target `t` from user `u` does:
the handler first fetches `t` and sends the frame's message through the
module-level client.  When both succeed the route of `u` is `t` afterwards,
the routes of the other users are as before and the entry of `u` is
overwritten, not appended.  When the fetch or the send fails the state is
unchanged. -/
theorem handleWsMessage_start_cases (env : Env) (st : State) (u : String) (d : ChatData) :
    (∀ acct, env.fetch d.targetUserId = Except.ok acct → env.send 0 = none →
      (handleWsMessage env st u
          (RawFrame.value (some "chat") (some "start") (some d))).state.activeChats.get u =
        some d.targetUserId
      ∧ (∀ u', u' ≠ u →
          (handleWsMessage env st u
            (RawFrame.value (some "chat") (some "start") (some d))).state.activeChats.get u' =
          st.activeChats.get u')
      ∧ (handleWsMessage env st u
          (RawFrame.value (some "chat") (some "start") (some d))).state.activeChats.countKey u =
        max 1 (st.activeChats.countKey u)
      ∧ houseCalls (handleWsMessage env st u
          (RawFrame.value (some "chat") (some "start") (some d))).trace =
        [Event.houseFetch d.targetUserId, Event.houseSend acct.id d.message])
    ∧ (∀ err, env.fetch d.targetUserId = Except.error err →
      (handleWsMessage env st u
          (RawFrame.value (some "chat") (some "start") (some d))).state = st
      ∧ houseCalls (handleWsMessage env st u
          (RawFrame.value (some "chat") (some "start") (some d))).trace =
        [Event.houseFetch d.targetUserId])
    ∧ (∀ acct err, env.fetch d.targetUserId = Except.ok acct → env.send 0 = some err →
      (handleWsMessage env st u
          (RawFrame.value (some "chat") (some "start") (some d))).state = st
      ∧ houseCalls (handleWsMessage env st u
          (RawFrame.value (some "chat") (some "start") (some d))).trace =
        [Event.houseFetch d.targetUserId, Event.houseSend acct.id d.message]) := by
  refine ⟨?_, ?_, ?_⟩
  · intro acct hf hs
    rw [handleWsMessage_chat_ok env st u (some "start") d acct hf hs]
    simp only [if_true]
    refine ⟨JsMap.get_set_self _ _ _, ?_, JsMap.countKey_set_self _ _ _, ?_⟩
    · intro u' hne
      exact JsMap.get_set_ne _ _ _ _ hne
    · cases st.wsClients.get u <;> rfl
  · intro err hf
    rw [handleWsMessage_chat_fetch_fails env st u (some "start") d err hf]
    exact ⟨rfl, rfl⟩
  · intro acct err hf hs
    rw [handleWsMessage_chat_send_fails env st u (some "start") d acct err hf hs]
    exact ⟨rfl, rfl⟩

/-- C13, as stated, fails: user `u1` has no route, yet a chat frame without
action makes the handler fetch the account, send the text and push a log on
the socket of `u1`. -/
theorem handleWsMessage_no_route_counterexample :
    demoState.activeChats.get "u1" = none
    ∧ houseCalls (handleWsMessage okEnv demoState "u1" textFrame).trace =
        [Event.houseFetch "123", Event.houseSend "123" (some "oi")]
    ∧ pushedTo 7 (handleWsMessage okEnv demoState "u1" textFrame).trace =
        [Frame.log LogType.info (msgRelayed "ana#0001" (some "oi"))] := by
  decide

/-- C13, amended: for a chat frame without action `start` from a user who has
no route, the handler does not consult `activeChats`: it fetches the target
and, when that succeeds, sends the message; when both succeed it pushes one
`info` log on the socket of the user, if one is registered.  In every case the
state is unchanged, so the user still has no route. -/
theorem handleWsMessage_no_route (env : Env) (st : State) (u : String) (action : Option String)
    (d : ChatData) (haction : action ≠ some "start") (hroute : st.activeChats.get u = none) :
    (handleWsMessage env st u (RawFrame.value (some "chat") action (some d))).state = st
    ∧ (handleWsMessage env st u
        (RawFrame.value (some "chat") action (some d))).state.activeChats.get u = none
    ∧ (∀ acct, env.fetch d.targetUserId = Except.ok acct → env.send 0 = none →
        (handleWsMessage env st u (RawFrame.value (some "chat") action (some d))).trace =
          [Event.houseFetch d.targetUserId, Event.houseSend acct.id d.message]
            ++ sendLog (st.wsClients.get u) LogType.info (msgRelayed acct.tag d.message))
    ∧ (∀ err, env.fetch d.targetUserId = Except.error err →
        (handleWsMessage env st u (RawFrame.value (some "chat") action (some d))).trace =
          [Event.houseFetch d.targetUserId, Event.consoleErrorObj labelWsError err])
    ∧ (∀ acct err, env.fetch d.targetUserId = Except.ok acct → env.send 0 = some err →
        (handleWsMessage env st u (RawFrame.value (some "chat") action (some d))).trace =
          [Event.houseFetch d.targetUserId, Event.houseSend acct.id d.message,
            Event.consoleErrorObj labelWsError err]) := by
  have hstate : (handleWsMessage env st u
      (RawFrame.value (some "chat") action (some d))).state = st := by
    cases hf : env.fetch d.targetUserId with
    | error err => rw [handleWsMessage_chat_fetch_fails env st u action d err hf]
    | ok acct =>
      cases hs : env.send 0 with
      | some err => rw [handleWsMessage_chat_send_fails env st u action d acct err hf hs]
      | none =>
        rw [handleWsMessage_chat_ok env st u action d acct hf hs]
        simp [haction]
  refine ⟨hstate, ?_, ?_, ?_, ?_⟩
  · rw [hstate]; exact hroute
  · intro acct hf hs
    rw [handleWsMessage_chat_ok env st u action d acct hf hs]
  · intro err hf
    rw [handleWsMessage_chat_fetch_fails env st u action d err hf]
  · intro acct err hf hs
    rw [handleWsMessage_chat_send_fails env st u action d acct err hf hs]

/-- Witness for the amended C13: the text frame of user `u1`, who has no route. -/
theorem handleWsMessage_no_route_witness :
    (handleWsMessage okEnv demoState "u1"
        (RawFrame.value (some "chat") none
          (some { targetUserId := "123", message := some "oi" }))).state = demoState :=
  (handleWsMessage_no_route okEnv demoState "u1" none
    { targetUserId := "123", message := some "oi" } (by decide) rfl).1

/-- C16: for a frame that is not JSON, is JSON without a `data` object, has a
type other than `chat`, or is a chat frame whose fetch or send fails, the
handler ends without an exception leaving it, the state (all three maps, so
also the registration of the sending socket) is unchanged and no frame is
pushed to any socket. -/
theorem handleWsMessage_dropped (env : Env) (st : State) (u : String) (raw : RawFrame)
    (h : dropped env raw) :
    (handleWsMessage env st u raw).escaped = none
    ∧ (handleWsMessage env st u raw).state = st
    ∧ (handleWsMessage env st u raw).state.wsClients.get u = st.wsClients.get u
    ∧ pushedFrames (handleWsMessage env st u raw).trace = [] := by
  have key : (handleWsMessage env st u raw).escaped = none
      ∧ (handleWsMessage env st u raw).state = st
      ∧ pushedFrames (handleWsMessage env st u raw).trace = [] := by
    cases raw with
    | invalid => exact ⟨rfl, rfl, rfl⟩
    | nullValue => exact ⟨rfl, rfl, rfl⟩
    | value type action data =>
      by_cases ht : type = some "chat"
      · subst ht
        cases data with
        | none => exact ⟨rfl, rfl, rfl⟩
        | some d =>
          cases hf : env.fetch d.targetUserId with
          | error err =>
            rw [handleWsMessage_chat_fetch_fails env st u action d err hf]
            exact ⟨rfl, rfl, rfl⟩
          | ok acct =>
            cases hs : env.send 0 with
            | some err =>
              rw [handleWsMessage_chat_send_fails env st u action d acct err hf hs]
              exact ⟨rfl, rfl, rfl⟩
            | none =>
              exfalso
              simp only [dropped] at h
              rcases h with h | ⟨err, h⟩ | ⟨err, h⟩
              · exact h rfl
              · rw [hf] at h; cases h
              · rw [hs] at h; cases h
      · simp [handleWsMessage, ht, pushedFrames]
  refine ⟨key.1, key.2.1, ?_, key.2.2⟩
  rw [key.2.1]

/-- Witness for C16: text that is not JSON on the socket of user `u1`. -/
theorem handleWsMessage_dropped_witness :
    (handleWsMessage okEnv demoState "u1" RawFrame.invalid).state = demoState :=
  (handleWsMessage_dropped okEnv demoState "u1" RawFrame.invalid trivial).2.1

/-! ## The chat relay: inbound messages -/

theorem JsMap.get_eq_none_of_not_mem {V : Type} (m : JsMap V) (k : String)
    (h : k ∉ m.map Prod.fst) : m.get k = none := by
  induction m with
  | nil => rfl
  | cons e rest ih =>
    obtain ⟨k0, v0⟩ := e
    simp only [List.map_cons, List.mem_cons, not_or] at h
    have h0 : ¬ k0 = k := fun h1 => h.1 h1.symm
    simp [JsMap.get, h0, ih h.2]

theorem JsMap.mem_of_get {V : Type} (m : JsMap V) (k : String) (v : V)
    (h : m.get k = some v) : (k, v) ∈ m := by
  induction m with
  | nil => simp [JsMap.get] at h
  | cons e rest ih =>
    obtain ⟨k0, v0⟩ := e
    by_cases h0 : k0 = k
    · subst h0
      simp [JsMap.get] at h
      subst h
      exact List.mem_cons_self _ _
    · simp only [JsMap.get, h0, if_false] at h
      exact List.mem_cons_of_mem _ (ih h)

/-- The frames the loop pushes on the socket `s` registered for user `u`, when
no other user is registered with that socket and the keys of the entries are
distinct: the chat frame once when the route of `u` is the author, nothing
otherwise. -/
theorem pushedTo_fanOut (ws : JsMap Nat) (msg : Inbound) (u : String) (s : Nat)
    (hu : ws.get u = some s) (hsock : ∀ u', ws.get u' = some s → u' = u) :
    ∀ entries : JsMap String, (entries.map Prod.fst).Nodup →
      pushedTo s (fanOut ws msg entries) =
        if entries.get u = some msg.authorId then [chatFrame msg] else [] := by
  intro entries
  induction entries with
  | nil => intro _; simp [fanOut, pushedTo, JsMap.get]
  | cons e rest ih =>
    obtain ⟨u0, t0⟩ := e
    intro hnd
    simp only [List.map_cons, List.nodup_cons] at hnd
    obtain ⟨hnot, hrest⟩ := hnd
    rw [fanOut, pushedTo_append, ih hrest]
    by_cases h0 : u0 = u
    · subst h0
      rw [JsMap.get_eq_none_of_not_mem rest u0 hnot]
      by_cases ht : msg.authorId = t0
      · subst ht
        simp [JsMap.get, hu, pushedTo]
      · have ht2 : ¬ t0 = msg.authorId := fun h1 => ht h1.symm
        simp [JsMap.get, ht, ht2, pushedTo]
    · have hhead : pushedTo s
          (if msg.authorId = t0 then
            match ws.get u0 with
            | some ws0 => [Event.push ws0 (chatFrame msg)]
            | none => []
          else []) = [] := by
        by_cases ht : msg.authorId = t0
        · rw [if_pos ht]
          cases hg : ws.get u0 with
          | none => rfl
          | some s0 =>
            have hne : ¬ s0 = s := by
              intro hs
              rw [hs] at hg
              exact h0 (hsock u0 hg)
            simp [pushedTo, hne]
        · rw [if_neg ht]
          rfl
      rw [hhead]
      simp [JsMap.get, h0]

/-- Every effect of the loop is a push of the chat frame to the registered
socket of a user whose route is the author. -/
theorem fanOut_events (ws : JsMap Nat) (msg : Inbound) :
    ∀ (entries : JsMap String) (e : Event), e ∈ fanOut ws msg entries →
      ∃ s u, e = Event.push s (chatFrame msg) ∧ ws.get u = some s
        ∧ (u, msg.authorId) ∈ entries := by
  intro entries
  induction entries with
  | nil => intro e he; simp [fanOut] at he
  | cons en rest ih =>
    obtain ⟨u0, t0⟩ := en
    intro e he
    rw [fanOut, List.mem_append] at he
    rcases he with he | he
    · by_cases ht : msg.authorId = t0
      · rw [if_pos ht] at he
        cases hg : ws.get u0 with
        | none => rw [hg] at he; simp at he
        | some s0 =>
          rw [hg] at he
          simp only [List.mem_singleton] at he
          exact ⟨s0, u0, he, hg, by rw [ht]; exact List.mem_cons_self _ _⟩
      · rw [if_neg ht] at he
        simp at he
    · obtain ⟨s, u, h1, h2, h3⟩ := ih e he
      exact ⟨s, u, h1, h2, List.mem_cons_of_mem _ h3⟩

theorem pushedFrames_of_pushes (f : Frame) :
    ∀ t : List Event, (∀ e ∈ t, ∃ s, e = Event.push s f) → ∀ g ∈ pushedFrames t, g = f := by
  intro t
  induction t with
  | nil => intro _ g hg; simp [pushedFrames] at hg
  | cons e rest ih =>
    intro h g hg
    obtain ⟨s, hs⟩ := h e (List.mem_cons_self _ _)
    subst hs
    simp only [pushedFrames, List.mem_cons] at hg
    rcases hg with hg | hg
    · exact hg
    · exact ih (fun e he => h e (List.mem_cons_of_mem _ he)) g hg

theorem messageCreate_dm (st : State) (msg : Inbound) (hbot : msg.authorBot = false)
    (hdm : msg.channelType = 1) :
    messageCreate st msg =
      { state := st, trace := fanOut st.wsClients msg st.activeChats, escaped := none } := by
  simp [messageCreate, hbot, hdm]

/-- C14: for a direct message of an author that is not a bot, on maps with
distinct keys and distinct sockets, the listener pushes the chat frame (from
the id, the tag and the content of the message) exactly once on the registered
socket of every user whose route is the author, and nothing on the socket of a
user whose route is another account or who has no route; every effect of the
listener is such a push, and the state is unchanged. -/
theorem messageCreate_fanout (st : State) (msg : Inbound) (hbot : msg.authorBot = false)
    (hdm : msg.channelType = 1)
    (hkeys : (st.activeChats.map Prod.fst).Nodup)
    (hsock : ∀ u u' s, st.wsClients.get u = some s → st.wsClients.get u' = some s → u' = u) :
    (messageCreate st msg).state = st
    ∧ (messageCreate st msg).escaped = none
    ∧ (∀ u s, st.wsClients.get u = some s → st.activeChats.get u = some msg.authorId →
        pushedTo s (messageCreate st msg).trace =
          [Frame.chat msg.authorId msg.authorTag msg.content])
    ∧ (∀ u s, st.wsClients.get u = some s → st.activeChats.get u ≠ some msg.authorId →
        pushedTo s (messageCreate st msg).trace = [])
    ∧ (∀ e ∈ (messageCreate st msg).trace, ∃ s u,
        e = Event.push s (Frame.chat msg.authorId msg.authorTag msg.content)
          ∧ st.wsClients.get u = some s ∧ (u, msg.authorId) ∈ st.activeChats) := by
  rw [messageCreate_dm st msg hbot hdm]
  refine ⟨rfl, rfl, ?_, ?_, ?_⟩
  · intro u s hu hr
    simp only
    rw [pushedTo_fanOut st.wsClients msg u s hu (fun u' h => hsock u u' s hu h) _ hkeys, if_pos hr]
    rfl
  · intro u s hu hr
    simp only
    rw [pushedTo_fanOut st.wsClients msg u s hu (fun u' h => hsock u u' s hu h) _ hkeys, if_neg hr]
  · intro e he
    exact fanOut_events st.wsClients msg st.activeChats e he

theorem fanState_sockets : ∀ (u u' : String) (s : Nat),
    fanState.wsClients.get u = some s → fanState.wsClients.get u' = some s → u' = u := by
  intro u u' s h1 h2
  simp only [fanState, JsMap.get] at h1 h2
  split_ifs at h1 h2 <;> simp at h1 h2 <;> first | omega | (subst_vars; rfl)

/-- Witness for C14: `u1` and `u2` chat with the author, `u3` with another
account; socket 8 of `u2` gets the chat frame once. -/
theorem messageCreate_fanout_witness :
    pushedTo 8 (messageCreate fanState inboundDm).trace = [Frame.chat "123" "ana#0001" "oi"] :=
  (messageCreate_fanout fanState inboundDm rfl rfl (by decide)
fanState_sockets).2.2.1 "u2" 8 rfl rfl

/-- C15, as stated, fails: user `u1` chats with the author of the direct
message; the socket of `u1` receives one frame, the chat frame, and the
listener pushes no log frame at all. -/
theorem messageCreate_log_counterexample :
    fanState.activeChats.get "u1" = some inboundDm.authorId
    ∧ pushedTo 7 (messageCreate fanState inboundDm).trace = [Frame.chat "123" "ana#0001" "oi"]
    ∧ (pushedTo 7 (messageCreate fanState inboundDm).trace).length ≠ 2
    ∧ (pushedFrames (messageCreate fanState inboundDm).trace).filter isLogFrame = [] := by
  decide

/-- C15, amended: for a direct message of an author that is not a bot, on maps
with distinct keys and distinct sockets, the registered socket of a user whose
route is the author receives one frame, the chat frame, and no frame the
listener pushes is a log frame. -/
theorem messageCreate_single_frame (st : State) (msg : Inbound)
    (hbot : msg.authorBot = false) (hdm : msg.channelType = 1)
    (hkeys : (st.activeChats.map Prod.fst).Nodup)
    (hsock : ∀ u u' s, st.wsClients.get u = some s → st.wsClients.get u' = some s → u' = u) :
    (∀ u s, st.wsClients.get u = some s → st.activeChats.get u = some msg.authorId →
        (pushedTo s (messageCreate st msg).trace).length = 1
        ∧ pushedTo s (messageCreate st msg).trace = [chatFrame msg])
    ∧ (∀ f ∈ pushedFrames (messageCreate st msg).trace, f = chatFrame msg ∧ isLogFrame f = false)
    := by
  rw [messageCreate_dm st msg hbot hdm]
  refine ⟨?_, ?_⟩
  · intro u s hu hr
    simp only
    rw [pushedTo_fanOut st.wsClients msg u s hu (fun u' h => hsock u u' s hu h) _ hkeys, if_pos hr]
    exact ⟨rfl, rfl⟩
  · intro f hf
    have hall : ∀ e ∈ fanOut st.wsClients msg st.activeChats,
        ∃ s, e = Event.push s (chatFrame msg) := by
      intro e he
      obtain ⟨s, _, h1, _, _⟩ := fanOut_events st.wsClients msg st.activeChats e he
      exact ⟨s, h1⟩
    have := pushedFrames_of_pushes (chatFrame msg) _ hall f hf
    rw [this]
    exact ⟨rfl, rfl⟩

/-- Witness for the amended C15: socket 7 of `u1` gets one frame. -/
theorem messageCreate_single_frame_witness :
    (pushedTo 7 (messageCreate fanState inboundDm).trace).length = 1 :=
  ((messageCreate_single_frame fanState inboundDm rfl rfl (by decide)
fanState_sockets).1 "u1" 7 rfl rfl).1

/-! ## The sockets: open, frame, close -/

theorem ownerOf_append (l1 l2 : List (Nat × String)) (s : Nat) :
    ownerOf (l1 ++ l2) s =
      match ownerOf l1 s with
      | some u => some u
      | none => ownerOf l2 s := by
  induction l1 with
  | nil => rfl
  | cons e rest ih =>
    obtain ⟨s0, u0⟩ := e
    by_cases h : s0 = s
    · simp [ownerOf, h]
    · simp [ownerOf, h, ih]

theorem ownerOf_filter_self (l : List (Nat × String)) (s : Nat) :
    ownerOf (l.filter (fun e => decide (e.1 ≠ s))) s = none := by
  induction l with
  | nil => rfl
  | cons e rest ih =>
    obtain ⟨s0, u0⟩ := e
    by_cases h : s0 = s
    · rw [List.filter_cons_of_neg (by simp [h])]
      exact ih
    · rw [List.filter_cons_of_pos (by simp [h])]
      simp only [ownerOf, if_neg h]
      exact ih

theorem ownerOf_filter_ne (l : List (Nat × String)) (s s1 : Nat) (hne : s1 ≠ s) :
    ownerOf (l.filter (fun e => decide (e.1 ≠ s))) s1 = ownerOf l s1 := by
  induction l with
  | nil => rfl
  | cons e rest ih =>
    obtain ⟨s0, u0⟩ := e
    by_cases h : s0 = s
    · subst h
      have h1 : ¬ s0 = s1 := fun h2 => hne h2.symm
      rw [List.filter_cons_of_neg (by simp)]
      simp only [ownerOf, if_neg h1]
      exact ih
    · rw [List.filter_cons_of_pos (by simp [h])]
      by_cases h1 : s0 = s1
      · simp only [ownerOf, if_pos h1]
      · simp only [ownerOf, if_neg h1]
        exact ih

/-- A frame leaves `userBots` and `wsClients` alone, and `activeChats` either as
it is or with the route of the sender set. -/
theorem handleWsMessage_state (env : Env) (st : State) (u : String) (raw : RawFrame) :
    (handleWsMessage env st u raw).state = st
      ∨ ∃ t, (handleWsMessage env st u raw).state =
          { st with activeChats := st.activeChats.set u t } := by
  cases raw with
  | invalid => exact Or.inl rfl
  | nullValue => exact Or.inl rfl
  | value type action data =>
    by_cases ht : type = some "chat"
    · subst ht
      cases data with
      | none => exact Or.inl rfl
      | some d =>
        cases hf : env.fetch d.targetUserId with
        | error err =>
          rw [handleWsMessage_chat_fetch_fails env st u action d err hf]
          exact Or.inl rfl
        | ok acct =>
          cases hs : env.send 0 with
          | some err =>
            rw [handleWsMessage_chat_send_fails env st u action d acct err hf hs]
            exact Or.inl rfl
          | none =>
            rw [handleWsMessage_chat_ok env st u action d acct hf hs]
            by_cases ha : action = some "start"
            · exact Or.inr ⟨d.targetUserId, by simp [ha]⟩
            · exact Or.inl (by simp [ha])
    · exact Or.inl (by simp [handleWsMessage, ht])

theorem step_close (sys : Sys) (socket : Nat) (u : String)
    (hopen : ownerOf sys.live socket = some u) :
    step sys (WsEvent.close socket) =
      some { st := (onClose sys.st u).state,
             live := sys.live.filter (fun e => decide (e.1 ≠ socket)),
             pending := sys.pending } := by
  simp [step, hopen]

/-- C17: for every socket that is open for a user `u`, be it the one registered
in `wsClients` or one a newer socket has replaced there, the close event
leaves `wsClients` and `activeChats` without an entry for `u` (so the close of
a replaced socket unregisters the newer socket and clears its route), and
leaves `userBots` and the entries of every other user as they were. -/
theorem close_clears_user (sys : Sys) (socket : Nat) (u : String)
    (hopen : ownerOf sys.live socket = some u) :
    (step sys (WsEvent.close socket)).map (fun next => next.st) = some (onClose sys.st u).state
    ∧ (onClose sys.st u).state.wsClients.get u = none
    ∧ (onClose sys.st u).state.activeChats.get u = none
    ∧ (onClose sys.st u).state.wsClients.countKey u = 0
    ∧ (onClose sys.st u).state.activeChats.countKey u = 0
    ∧ (∀ u', u' ≠ u →
        (onClose sys.st u).state.wsClients.get u' = sys.st.wsClients.get u'
        ∧ (onClose sys.st u).state.activeChats.get u' = sys.st.activeChats.get u')
    ∧ (onClose sys.st u).state.userBots = sys.st.userBots
    ∧ (onClose sys.st u).escaped = none := by
  rw [step_close sys socket u hopen]
  refine ⟨rfl, JsMap.get_delete_self _ _, JsMap.get_delete_self _ _,
    JsMap.countKey_of_get_none _ _ (JsMap.get_delete_self _ _),
    JsMap.countKey_of_get_none _ _ (JsMap.get_delete_self _ _), ?_, rfl, rfl⟩
  intro u' hne
  exact ⟨JsMap.get_delete_ne _ _ _ hne, JsMap.get_delete_ne _ _ _ hne⟩

/-- Witness for C17: socket 1 of `u1` was replaced by socket 2, which is
registered and has a route; the close of socket 1 leaves `u1` with no socket
registered although socket 2 stays open. -/
theorem close_clears_user_witness :
    replacedSys.st.wsClients.get "u1" = some 2
    ∧ (step replacedSys (WsEvent.close 1)).map (fun next => next.st.wsClients.get "u1") =
        some none
    ∧ (step replacedSys (WsEvent.close 1)).map (fun next => ownerOf next.live 2) =
        some (some "u1")
    ∧ (onClose replacedSys.st "u1").state.activeChats.get "u1" = none :=
  ⟨rfl, rfl, rfl, (close_clears_user replacedSys 1 "u1" rfl).2.2.1⟩

theorem step_connect (sys : Sys) (u : String) (socket : Nat) (next : Sys)
    (h : step sys (WsEvent.connect u socket) = some next) :
    ownerOf sys.live socket = none
      ∧ next = { st := { sys.st with wsClients := sys.st.wsClients.set u socket },
                 live := sys.live ++ [(socket, u)],
                 pending := sys.pending } := by
  cases ho : ownerOf sys.live socket with
  | some u0 => simp [step, ho] at h
  | none =>
    simp only [step, ho, Option.some.injEq] at h
    exact ⟨rfl, h.symm⟩

theorem step_frame (sys : Sys) (socket : Nat) (raw : RawFrame) (next : Sys)
    (h : step sys (WsEvent.frame socket raw) = some next) :
    ∃ u, ownerOf sys.live socket = some u
      ∧ next = { st := sys.st, live := sys.live, pending := sys.pending ++ [(u, raw)] } := by
  cases ho : ownerOf sys.live socket with
  | none => simp [step, ho] at h
  | some u =>
    simp only [step, ho, Option.some.injEq] at h
    exact ⟨u, rfl, h.symm⟩

theorem step_settle (sys : Sys) (task : Nat) (env : Env) (next : Sys)
    (h : step sys (WsEvent.settle task env) = some next) :
    ∃ call, taskAt sys.pending task = some call
      ∧ next = { st := (handleWsMessage env sys.st call.1 call.2).state,
                 live := sys.live,
                 pending := dropTask sys.pending task } := by
  cases ht : taskAt sys.pending task with
  | none => simp [step, ht] at h
  | some call =>
    simp only [step, ht, Option.some.injEq] at h
    exact ⟨call, rfl, h.symm⟩

theorem step_close_inv (sys : Sys) (socket : Nat) (next : Sys)
    (h : step sys (WsEvent.close socket) = some next) :
    ∃ u, ownerOf sys.live socket = some u
      ∧ next = { st := { sys.st with wsClients := sys.st.wsClients.delete u,
                                     activeChats := sys.st.activeChats.delete u },
                 live := sys.live.filter (fun e => decide (e.1 ≠ socket)),
                 pending := sys.pending } := by
  cases ho : ownerOf sys.live socket with
  | none => simp [step, ho] at h
  | some u =>
    simp only [step, ho, Option.some.injEq] at h
    exact ⟨u, rfl, h.symm⟩

theorem mem_of_taskAt : ∀ (l : List (String × RawFrame)) (i : Nat) (call : String × RawFrame),
    taskAt l i = some call → call ∈ l := by
  intro l
  induction l with
  | nil => intro i call h; simp [taskAt] at h
  | cons t rest ih =>
    intro i call h
    cases i with
    | zero =>
      simp only [taskAt, Option.some.injEq] at h
      rw [← h]
      exact List.mem_cons_self _ _
    | succ i =>
      simp only [taskAt] at h
      exact List.mem_cons_of_mem _ (ih i call h)

theorem mem_of_mem_dropTask : ∀ (l : List (String × RawFrame)) (i : Nat)
    (call : String × RawFrame), call ∈ dropTask l i → call ∈ l := by
  intro l
  induction l with
  | nil => intro i call h; simp [dropTask] at h
  | cons t rest ih =>
    intro i call h
    cases i with
    | zero =>
      simp only [dropTask] at h
      exact List.mem_cons_of_mem _ h
    | succ i =>
      simp only [dropTask, List.mem_cons] at h
      rcases h with h | h
      · rw [h]
        exact List.mem_cons_self _ _
      · exact List.mem_cons_of_mem _ (ih i call h)

/-- One event of a calm sequence keeps the server well registered. -/
theorem step_wellRegistered (sys next : Sys) (ev : WsEvent) (hinv : wellRegistered sys)
    (hcalm : match ev with
      | WsEvent.connect userId _ => ∀ s, ownerOf sys.live s ≠ some userId
      | WsEvent.close socket =>
        ∀ userId, ownerOf sys.live socket = some userId →
          ∀ call ∈ sys.pending, call.1 ≠ userId
      | _ => True)
    (h : step sys ev = some next) : wellRegistered next := by
  obtain ⟨hreg, hpend, hroute⟩ := hinv
  cases ev with
  | connect u' socket =>
    obtain ⟨hfresh, hn⟩ := step_connect sys u' socket next h
    subst hn
    simp only at hcalm
    have hgrow : ∀ s u, ownerOf sys.live s = some u →
        ownerOf (sys.live ++ [(socket, u')]) s = some u := by
      intro s u hs
      simp only [ownerOf_append, hs]
    refine ⟨?_, ?_, ?_⟩
    · intro s u hs
      simp only at hs ⊢
      rw [ownerOf_append] at hs
      cases ho : ownerOf sys.live s with
      | some x =>
        rw [ho] at hs
        simp only [Option.some.injEq] at hs
        subst hs
        have hne : x ≠ u' := by
          intro hx
          subst hx
          exact hcalm s ho
        rw [JsMap.get_set_ne _ _ _ _ hne]
        exact hreg s x ho
      | none =>
        rw [ho] at hs
        simp only [ownerOf] at hs
        by_cases hss : socket = s
        · rw [if_pos hss] at hs
          simp only [Option.some.injEq] at hs
          subst hs
          subst hss
          exact JsMap.get_set_self _ _ _
        · rw [if_neg hss] at hs
          cases hs
    · intro call hc
      obtain ⟨s, hs⟩ := hpend call hc
      exact ⟨s, hgrow s _ hs⟩
    · intro u hr
      obtain ⟨s, hs⟩ := hroute u hr
      exact ⟨s, hgrow s u hs⟩
  | frame socket raw =>
    obtain ⟨u0, ho, hn⟩ := step_frame sys socket raw next h
    subst hn
    refine ⟨hreg, ?_, hroute⟩
    intro call hc
    simp only [List.mem_append, List.mem_singleton] at hc
    rcases hc with hc | hc
    · exact hpend call hc
    · subst hc
      exact ⟨socket, ho⟩
  | settle task env =>
    obtain ⟨call, ht, hn⟩ := step_settle sys task env next h
    subst hn
    have hmem := mem_of_taskAt sys.pending task call ht
    refine ⟨?_, ?_, ?_⟩
    · intro s u hs
      have hws : (handleWsMessage env sys.st call.1 call.2).state.wsClients =
          sys.st.wsClients := by
        rcases handleWsMessage_state env sys.st call.1 call.2 with hst | ⟨t, hst⟩ <;> rw [hst]
      simp only [hws]
      exact hreg s u hs
    · intro c hc
      exact hpend c (mem_of_mem_dropTask sys.pending task c hc)
    · intro u hr
      rcases handleWsMessage_state env sys.st call.1 call.2 with hst | ⟨t, hst⟩
      · simp only [hst] at hr
        exact hroute u hr
      · simp only [hst] at hr
        by_cases hu : u = call.1
        · subst hu
          exact hpend call hmem
        · rw [JsMap.get_set_ne _ _ _ _ hu] at hr
          exact hroute u hr
  | close socket =>
    obtain ⟨u0, ho, hn⟩ := step_close_inv sys socket next h
    subst hn
    simp only at hcalm
    have hkeep : ∀ s u, ownerOf sys.live s = some u → u ≠ u0 →
        ownerOf (sys.live.filter (fun e => decide (e.1 ≠ socket))) s = some u := by
      intro s u hs hu
      have hne : s ≠ socket := by
        intro hss
        subst hss
        rw [ho] at hs
        exact hu (Option.some.inj hs).symm
      rw [ownerOf_filter_ne _ _ _ hne]
      exact hs
    refine ⟨?_, ?_, ?_⟩
    · intro s u hs
      have hne : s ≠ socket := by
        intro hss
        subst hss
        rw [ownerOf_filter_self] at hs
        cases hs
      rw [ownerOf_filter_ne _ _ _ hne] at hs
      have hu : u ≠ u0 := by
        intro hu
        subst hu
        have h1 := hreg s u hs
        have h2 := hreg socket u ho
        rw [h1] at h2
        exact hne (Option.some.inj h2)
      simp only
      rw [JsMap.get_delete_ne _ _ _ hu]
      exact hreg s u hs
    · intro call hc
      obtain ⟨s, hs⟩ := hpend call hc
      exact ⟨s, hkeep s call.1 hs (hcalm u0 ho call hc)⟩
    · intro u hr
      simp only at hr
      have hu : u ≠ u0 := by
        intro hu
        subst hu
        exact hr (JsMap.get_delete_self _ _)
      rw [JsMap.get_delete_ne _ _ _ hu] at hr
      obtain ⟨s, hs⟩ := hroute u hr
      exact ⟨s, hkeep s u hs hu⟩

theorem run_wellRegistered : ∀ (evs : List WsEvent) (sys last : Sys),
    wellRegistered sys → calm sys evs → run sys evs = some last → wellRegistered last := by
  intro evs
  induction evs with
  | nil =>
    intro sys last hinv _ h
    simp only [run, Option.some.injEq] at h
    subst h
    exact hinv
  | cons ev rest ih =>
    intro sys last hinv hcalm h
    cases hs : step sys ev with
    | none => simp [run, hs] at h
    | some next =>
      simp only [run, hs] at h
      simp only [calm, hs] at hcalm
      exact ih next last (step_wellRegistered sys next ev hinv hcalm.1 hs) hcalm.2 h

theorem emptySys_wellRegistered : wellRegistered emptySys := by
  refine ⟨?_, ?_, ?_⟩
  · intro s u hs
    cases hs
  · intro call hc
    cases hc
  · intro u hr
    exact absurd rfl hr

/-- C11, as stated, fails.  User `u1` opens socket 1, then socket 2, socket 1
closes and a start frame is handled on socket 2, which is still open: the
state reached has a route for `u1` and no entry for `u1` in `wsClients`.  The
same state of the maps, with no socket open at all, is reached when the only
socket of `u1` closes while the platform calls of its start frame are under
way. -/
theorem route_without_channel_counterexample :
    (¬ ∀ sys, Reachable sys → ∀ u, sys.st.activeChats.get u ≠ none →
        sys.st.wsClients.get u ≠ none)
    ∧ (run emptySys replacedSocketEvents).map
        (fun sys => (sys.st.activeChats.get "u1", sys.st.wsClients.get "u1",
          ownerOf sys.live 2)) = some (some "123", none, some "u1")
    ∧ (run emptySys lateSettleEvents).map
        (fun sys => (sys.st.activeChats.get "u1", sys.st.wsClients.get "u1", sys.live)) =
        some (some "123", none, []) := by
  refine ⟨?_, rfl, rfl⟩
  intro h
  have hr : Reachable
      { st := { userBots := [], wsClients := [], activeChats := [("u1", "123")],
                nextClient := 0 },
        live := [(2, "u1")],
        pending := [] } := ⟨replacedSocketEvents, rfl⟩
  exact h _ hr "u1" (by decide) rfl

/-- C11, amended: in every state reached from the empty state by a sequence
of socket events in which no user has two sockets open at once and no socket
closes while a frame of its user is being handled, a user with a route has an
open socket, and that socket is the user's entry in `wsClients`.  In any
sequence, a route disappears only by the close of a socket of its user, which
also removes the user's entry in `wsClients`, and an entry of `wsClients`
disappears only by such a close, which also removes the route. -/
theorem calm_route_has_channel :
    (∀ evs sys, calm emptySys evs → run emptySys evs = some sys →
        ∀ u, sys.st.activeChats.get u ≠ none →
          ∃ s, ownerOf sys.live s = some u ∧ sys.st.wsClients.get u = some s)
    ∧ (∀ sys ev next, step sys ev = some next → ∀ u,
        (sys.st.activeChats.get u ≠ none → next.st.activeChats.get u = none →
          (∃ s, ev = WsEvent.close s ∧ ownerOf sys.live s = some u)
            ∧ next.st.wsClients.get u = none)
        ∧ (sys.st.wsClients.get u ≠ none → next.st.wsClients.get u = none →
          (∃ s, ev = WsEvent.close s ∧ ownerOf sys.live s = some u)
            ∧ next.st.activeChats.get u = none)) := by
  refine ⟨?_, ?_⟩
  · intro evs sys hcalm hrun u hr
    obtain ⟨hreg, _, hroute⟩ :=
      run_wellRegistered evs emptySys sys emptySys_wellRegistered hcalm hrun
    obtain ⟨s, hs⟩ := hroute u hr
    exact ⟨s, hs, hreg s u hs⟩
  · intro sys ev next h u
    cases ev with
    | connect u' socket =>
      obtain ⟨_, hn⟩ := step_connect sys u' socket next h
      subst hn
      constructor
      · intro h1 h2
        exact absurd h2 h1
      · intro h1 h2
        simp only at h2
        by_cases hu : u = u'
        · subst hu
          rw [JsMap.get_set_self] at h2
          cases h2
        · rw [JsMap.get_set_ne _ _ _ _ hu] at h2
          exact absurd h2 h1
    | frame socket raw =>
      obtain ⟨u0, ho, hn⟩ := step_frame sys socket raw next h
      subst hn
      exact ⟨fun h1 h2 => absurd h2 h1, fun h1 h2 => absurd h2 h1⟩
    | settle task env =>
      obtain ⟨call, ht, hn⟩ := step_settle sys task env next h
      subst hn
      rcases handleWsMessage_state env sys.st call.1 call.2 with hst | ⟨t, hst⟩
      · simp only [hst]
        exact ⟨fun h1 h2 => absurd h2 h1, fun h1 h2 => absurd h2 h1⟩
      · simp only [hst]
        constructor
        · intro h1 h2
          by_cases hu : u = call.1
          · subst hu
            rw [JsMap.get_set_self] at h2
            cases h2
          · rw [JsMap.get_set_ne _ _ _ _ hu] at h2
            exact absurd h2 h1
        · intro h1 h2
          exact absurd h2 h1
    | close socket =>
      obtain ⟨u0, ho, hn⟩ := step_close_inv sys socket next h
      subst hn
      simp only
      by_cases hu : u = u0
      · subst hu
        exact ⟨fun _ _ => ⟨⟨socket, rfl, ho⟩, JsMap.get_delete_self _ _⟩,
          fun _ _ => ⟨⟨socket, rfl, ho⟩, JsMap.get_delete_self _ _⟩⟩
      · constructor
        · intro h1 h2
          rw [JsMap.get_delete_ne _ _ _ hu] at h2
          exact absurd h2 h1
        · intro h1 h2
          rw [JsMap.get_delete_ne _ _ _ hu] at h2
          exact absurd h2 h1

theorem calmEvents_calm : calm emptySys calmEvents := by
  refine ⟨fun s => ?_, ?_⟩
  · simp [emptySys, ownerOf]
  · simp [step, emptySys, ownerOf, onConnection, calm, calmEvents, taskAt]

/-- Witness for the amended C11: one socket for `u1`, a start frame on it and
its platform calls succeeding while the socket is open; the route of `u1`
comes with the open socket 1 as the entry of `u1` in `wsClients`. -/
theorem calm_route_has_channel_witness :
    (run emptySys calmEvents).map
        (fun sys => (sys.st.activeChats.get "u1", sys.st.wsClients.get "u1")) =
      some (some "123", some 1)
    ∧ ownerOf [(1, "u1")] 1 = some "u1"
    ∧ (JsMap.get [("u1", 1)] "u1" : Option Nat) = some 1 := by
  obtain ⟨s, h1, h2⟩ := calm_route_has_channel.1 calmEvents
    { st := { userBots := [], wsClients := [("u1", 1)], activeChats := [("u1", "123")],
              nextClient := 0 },
      live := [(1, "u1")],
      pending := [] }
    calmEvents_calm rfl "u1" (by decide)
  have hs : s = 1 := (Option.some.inj h2).symm
  subst hs
  exact ⟨rfl, h1, h2⟩

/-! ## The mass-send with a numeric count -/

theorem toNat_max_ceil (q : ℚ) : Int.toNat (max 0 ⌈q⌉) = ⌈q⌉₊ := by
  rw [← Int.ceil_toNat]
  rcases le_total 0 ⌈q⌉ with h | h
  · rw [max_eq_right h]
  · rw [max_eq_left h]
    simp [Int.toNat_of_nonpos h]

/-- C18: for every numeric count `q` that passes the validation (any rational
but zero, negative ones included), with a client of the supplied token in the
pool, every platform call succeeding and numbers printed as JavaScript prints
them, the handler (given fuel above the ceiling of `q`) performs exactly
`max 0 ⌈q⌉` sends and answers 200 with the summary `Sucesso! q mensagem(ns)
enviada(s) para tag.`, where `q` is printed as JavaScript prints it; a
negative count yields the 200 summary after no send at all. -/
theorem sendMessage_numeric_count (env : Env) (st : State) (sess : Session) (body : SendBody)
    (c : Client) (user : Account) (u m : String) (q : ℚ) (fuel : Nat)
    (hbot : st.userBots.get sess.id = some c) (htok : body.botToken = some c.token)
    (hu : body.userId = some u) (hu0 : u ≠ "")
    (hm : body.message = some m) (hm0 : m ≠ "")
    (hc : body.count = some q) (hq : q ≠ 0)
    (hfetch : env.fetch u = Except.ok user)
    (hsend : ∀ i, env.send i = none)
    (hshow : env.numberToString = jsNumberToString)
    (hfuel : ⌈q⌉₊ < fuel) :
    (sendMessage env st sess body fuel).map (fun r => r.outcome) =
        some (Outcome.responded 200
          { message := "Sucesso! " ++ jsNumberToString q ++ " mensagem(ns) enviada(s) para "
              ++ user.tag ++ ".",
            bot := none })
    ∧ (sendMessage env st sess body fuel).map (fun r => sendsOf r.trace) =
        some (List.replicate (Int.toNat (max 0 ⌈q⌉)) (Event.send c.id user.id m))
    ∧ (sendMessage env st sess body fuel).map (fun r => (sendsOf r.trace).length) =
        some (Int.toNat (max 0 ⌈q⌉))
    ∧ (q < 0 → (sendMessage env st sess body fuel).map (fun r => sendsOf r.trace) = some []) := by
  have hres : sendMessage env st sess body fuel =
      some { state := st, session := sess,
             trace := successTrace (st.wsClients.get sess.userId) c.id user u m
               (env.numberToString q) ⌈q⌉₊,
             outcome := Outcome.responded 200
               { message := msgSuccess (env.numberToString q) user.tag, bot := none } } := by
    rw [sendMessage_valid env st sess body fuel c u m q hbot htok hu hu0 hm hm0 hc hq, hfetch]
    simp only
    rw [sendLoop_complete env _ c.id user m q ⌈q⌉₊ (fun j => Nat.lt_ceil.symm)
      (fun j _ => hsend j) fuel 0 (Nat.zero_le _) (by omega)]
    simp [successTrace]
  have hsends : ∀ n, sendsOf (successTrace (st.wsClients.get sess.userId) c.id user u m
      (env.numberToString q) n) = List.replicate n (Event.send c.id user.id m) := by
    intro n
    simp [successTrace, startTrace, sendsOf_append, sendsOf_sendLog, sendsOf_iterations, sendsOf]
  rw [hres, toNat_max_ceil]
  refine ⟨?_, ?_, ?_, ?_⟩
  · simp [msgSuccess, hshow]
  · simp only [Option.map_some', hsends]
  · simp only [Option.map_some', hsends, List.length_replicate]
  · intro hneg
    simp only [Option.map_some', hsends, Nat.ceil_eq_zero.2 hneg.le, List.replicate_zero]

theorem halfCount_eq : halfCount = 5 / 2 := by
  unfold halfCount
  rw [Rat.mk'_eq_divInt, Rat.divInt_eq_div]
  norm_num

theorem ceil_halfCount : ⌈halfCount⌉ = 3 := by
  rw [halfCount_eq, Int.ceil_eq_iff]
  norm_num

/-- How `jsNumberToString` prints some numbers. -/
theorem jsNumberToString_examples :
    jsNumberToString 3 = "3" ∧ jsNumberToString halfCount = "2.5"
    ∧ jsNumberToString (-2) = "-2" ∧ jsNumberToString 100 = "100"
    ∧ jsNumberToString 0 = "0" := by
  decide

/-- Witness for C18: the count 5/2 yields three sends and the 200 summary that
quotes `2.5`. -/
theorem sendMessage_numeric_count_witness :
    (sendMessage okEnv demoState demoSession (demoBody halfCount) 4).map (fun r => r.outcome) =
        some (Outcome.responded 200
          { message := "Sucesso! 2.5 mensagem(ns) enviada(s) para ana#0001.", bot := none })
    ∧ (sendMessage okEnv demoState demoSession (demoBody halfCount) 4).map
        (fun r => sendsOf r.trace) =
      some [Event.send 0 "123" "hi", Event.send 0 "123" "hi", Event.send 0 "123" "hi"] := by
  have h := sendMessage_numeric_count okEnv demoState demoSession (demoBody halfCount)
    { id := 0, token := "tok" } { id := "123", tag := "ana#0001" } "123" "hi" halfCount 4
    rfl rfl rfl (by decide) rfl (by decide) rfl (by decide) rfl (fun _ => rfl) rfl
    (lt_of_le_of_lt (Nat.ceil_le.2 (by decide : halfCount ≤ ((3 : ℕ) : ℚ))) (by decide))
  refine ⟨h.1.trans (by decide), ?_⟩
  have h2 := h.2.1
  rw [ceil_halfCount] at h2
  exact h2

end Relay
